import Mathlib

/-!
Verification of nexys2epp, the register transaction engine of `main.c`.

A shallow embedding of `controlRead`, `bulkWrite`, `bulkRead`, `readRegister`
and `writeRegister` from `main.c`, and theorems about the sequence of USB
transfers they issue and the codes they return.

Modelling conventions.

* A byte is a `Nat` (a value `0..255`); a byte array is a `List Nat`.
* A C `int` is an `Int` (the theorems hold for every `Int`, so also for the
  32-bit range); `x & 0xFF` is `Int.land x 0xFF` and `x >> k` is the arithmetic
  shift `x >>> k`. Storing an `int` into a `uint8` is `toUint8`. A 32-bit
  length of `2^31` or more reaches the functions as the negative `int` with
  the same bits, which is how `main` passes its `uint32 len`.
* The USB stack and the board are the environment. A `Device` gives the outcome
  of a transfer as a function of all transfers issued so far (the one being
  answered last), which covers every deterministic device. Every libusb call is
  appended to a log of `Transfer`s, threaded through the functions.
-/

namespace Nexys2epp

/-! ## Transport model -/

/-- One call into libusb, with every argument the program passes except the
device handle. `bytes` of a bulk write is the array the buffer pointer refers to. -/
inductive Transfer where
  | control (requesttype request value index : Nat) (size : Int) (timeout : Nat)
  | bulkWrite (ep : Nat) (bytes : List Nat) (size : Int) (timeout : Nat)
  | bulkRead (ep : Nat) (size : Int) (timeout : Nat)
  deriving DecidableEq, Repr

/-- Outcome of an IN transfer: libusb reports a negative error code, or the
number of bytes it placed at the start of the receive buffer. -/
inductive Outcome where
  | error (errno : Nat)
  | moved (data : List Nat)
  deriving DecidableEq, Repr

/-- The `int` returned by `usb_control_msg` and `usb_bulk_read`: the negative
code `-(errno+1)` on error, otherwise the number of bytes delivered. -/
def Outcome.returnCode : Outcome → Int
  | .error errno => -((errno : Int) + 1)
  | .moved data => (data.length : Int)

/-- The bytes an IN transfer placed at the start of the receive buffer. -/
def Outcome.data : Outcome → List Nat
  | .error _ => []
  | .moved data => data

/-- The environment: what libusb returns for a transfer, given the log of all
transfers issued so far with the current one last. -/
structure Device where
  usb_control_msg : List Transfer → Outcome
  usb_bulk_write : List Transfer → Int
  usb_bulk_read : List Transfer → Outcome

/-- Direction and request-type bits of libusb's `usb.h`. -/
def USB_ENDPOINT_IN : Nat := 0x80
def USB_ENDPOINT_OUT : Nat := 0x00
def USB_TYPE_VENDOR : Nat := 0x40
def USB_RECIP_DEVICE : Nat := 0x00

/-- Call of libusb `usb_control_msg`: logs the transfer and asks the device. -/
def usb_control_msg (d : Device) (log : List Transfer)
    (requesttype request value index : Nat) (size : Int) (timeout : Nat) :
    Outcome × List Transfer :=
  let log1 := log ++ [Transfer.control requesttype request value index size timeout]
  (d.usb_control_msg log1, log1)

/-- Call of libusb `usb_bulk_write`: logs the transfer and asks the device. -/
def usb_bulk_write (d : Device) (log : List Transfer)
    (ep : Nat) (bytes : List Nat) (size : Int) (timeout : Nat) :
    Int × List Transfer :=
  let log1 := log ++ [Transfer.bulkWrite ep bytes size timeout]
  (d.usb_bulk_write log1, log1)

/-- Call of libusb `usb_bulk_read`: logs the transfer and asks the device. -/
def usb_bulk_read (d : Device) (log : List Transfer)
    (ep : Nat) (size : Int) (timeout : Nat) :
    Outcome × List Transfer :=
  let log1 := log ++ [Transfer.bulkRead ep size timeout]
  (d.usb_bulk_read log1, log1)

/-- Model of C `memcmp(a, b, n)`, of which the program only tests zero / non-zero:
`0` when the first `n` bytes agree, `1` otherwise. -/
def memcmp (a b : List Nat) (n : Nat) : Int :=
  if a.take n = b.take n then 0 else 1

/-- Conversion of an `int` to `uint8` on assignment. -/
def toUint8 (x : Int) : Nat := (x % 256).toNat

/-! ## The helpers of `main.c` -/

/-- Embedding of `controlRead` (main.c 35-52). -/
def controlRead (d : Device) (log : List Transfer) (bRequest wValue wIndex : Nat)
    (expected : List Nat) (wLength : Nat) : Int × List Transfer :=
  let r := usb_control_msg d log
    (USB_ENDPOINT_IN ||| USB_TYPE_VENDOR ||| USB_RECIP_DEVICE)
    bRequest wValue wIndex wLength 5000
  let returnCode := r.1.returnCode
  let buffer := r.1.data
  if returnCode ≠ wLength then (-1, r.2)
  else if memcmp buffer expected wLength ≠ 0 then (-2, r.2)
  else (0, r.2)

/-- Embedding of `bulkWrite` (main.c 57-64). -/
def bulkWrite (d : Device) (log : List Transfer) (endpoint : Nat)
    (buffer : List Nat) (wLength : Nat) : Int × List Transfer :=
  let r := usb_bulk_write d log (USB_ENDPOINT_OUT ||| endpoint) buffer wLength 5000
  let returnCode := r.1
  if returnCode ≠ wLength then (-1, r.2)
  else (0, r.2)

/-- Embedding of `bulkRead` (main.c 71-82). -/
def bulkRead (d : Device) (log : List Transfer) (endpoint : Nat)
    (expected : List Nat) (wLength : Nat) : Int × List Transfer :=
  let r := usb_bulk_read d log (USB_ENDPOINT_IN ||| endpoint) wLength 5000
  let returnCode := r.1.returnCode
  let buffer := r.1.data
  if returnCode ≠ wLength then (-1, r.2)
  else if memcmp buffer expected wLength ≠ 0 then (-2, r.2)
  else (0, r.2)

/-- What a transaction leaves behind: the returned `int`, the caller's buffer,
and the log of transfers issued. -/
structure Result where
  returnCode : Int
  buffer : List Nat
  log : List Transfer
  deriving DecidableEq, Repr

/-- Embedding of `readRegister` (main.c 88-168). `buffer` is the caller's buffer on entry;
the payload read overwrites its first bytes with the bytes delivered. -/
def readRegister (d : Device) (log : List Transfer) (reg : Nat) (nReads : Int)
    (buffer : List Nat) : Result :=
  let MSG_00 : List Nat := [0x05, 0x00, 0x10, 0x00]
  let MSG_01 : List Nat := [0x03, 0x03]
  let MSG_02 : List Nat := [0x0D, 0x00, 0x00, 0x00, 0x00, 0x00, 0x00, 0x00]
  let MSG_03 : List Nat := [0x07, 0x00, 0x03, 0x00, 0x71, 0x7F, 0x12, 0x01]
  let MSG_04 : List Nat := [0x05, 0x00, 0x09, 0x81, 0xED, 0xFE]
  let MSG_05 : List Nat := [0x03, 0x04, 0x00, 0x00]
  let MSG_06 : List Nat := [0x01, 0x00]
  let MSG_09 : List Nat := [0x03, 0x04, 0x85, 0x00]
  let MSG_11 : List Nat := [0x03, 0x04, 0x01, 0x00]
  let command : List Nat :=
    [0x08, 0x04, 0x05, 0x00, reg,
      toUint8 (Int.land nReads 0xFF),
      toUint8 (Int.land (nReads >>> (8 : Nat)) 0xFF),
      toUint8 (Int.land (nReads >>> (16 : Nat)) 0xFF),
      toUint8 (Int.land (nReads >>> (24 : Nat)) 0xFF)]
  let r1 := controlRead d log 0xE9 0x0000 0x0000 MSG_00 4
  if r1.1 ≠ 0 then ⟨-1, buffer, r1.2⟩ else
  let r2 := controlRead d r1.2 0xE6 0x0000 0x0000 MSG_01 2
  if r2.1 ≠ 0 then ⟨-2, buffer, r2.2⟩ else
  let r3 := controlRead d r2.2 0xE7 0x0000 0x0000 MSG_02 8
  if r3.1 ≠ 0 then ⟨-3, buffer, r3.2⟩ else
  let r4 := controlRead d r3.2 0xE9 0x0000 0x0000 MSG_00 4
  if r4.1 ≠ 0 then ⟨-4, buffer, r4.2⟩ else
  let r5 := bulkWrite d r4.2 1 MSG_03 8
  if r5.1 ≠ 0 then ⟨-5, buffer, r5.2⟩ else
  let r6 := bulkRead d r5.2 1 MSG_04 6
  if r6.1 ≠ 0 then ⟨-6, buffer, r6.2⟩ else
  let r7 := controlRead d r6.2 0xE9 0x0000 0x0000 MSG_00 4
  if r7.1 ≠ 0 then ⟨-7, buffer, r7.2⟩ else
  let r8 := controlRead d r7.2 0xE6 0x0000 0x0000 MSG_01 2
  if r8.1 ≠ 0 then ⟨-8, buffer, r8.2⟩ else
  let r9 := controlRead d r8.2 0xE7 0x0000 0x0000 MSG_02 8
  if r9.1 ≠ 0 then ⟨-9, buffer, r9.2⟩ else
  let r10 := controlRead d r9.2 0xE7 0x0000 0x0000 MSG_02 8
  if r10.1 ≠ 0 then ⟨-10, buffer, r10.2⟩ else
  let r11 := bulkWrite d r10.2 1 MSG_05 4
  if r11.1 ≠ 0 then ⟨-11, buffer, r11.2⟩ else
  let r12 := bulkRead d r11.2 1 MSG_06 2
  if r12.1 ≠ 0 then ⟨-12, buffer, r12.2⟩ else
  let r13 := bulkWrite d r12.2 1 command 9
  if r13.1 ≠ 0 then ⟨-13, buffer, r13.2⟩ else
  let r14 := bulkRead d r13.2 1 MSG_06 2
  if r14.1 ≠ 0 then ⟨-14, buffer, r14.2⟩ else
  let r15 := usb_bulk_read d r14.2 (USB_ENDPOINT_IN ||| 6) nReads 5000
  -- the delivered bytes are stored at the start of the caller's buffer
  let buffer := r15.1.data ++ buffer.drop r15.1.data.length
  if r15.1.returnCode ≠ nReads then ⟨-15, buffer, r15.2⟩ else
  let r16 := bulkWrite d r15.2 1 MSG_09 4
  if r16.1 ≠ 0 then ⟨-16, buffer, r16.2⟩ else
  let r17 := usb_bulk_read d r16.2 (USB_ENDPOINT_IN ||| 1) 6 5000
  let status := r17.1.data
  if r17.1.returnCode ≠ 6 then ⟨-17, buffer, r17.2⟩ else
  if status.getD 0 0 ≠ 0x05 ∨ status.getD 1 0 ≠ 0x40
      ∨ memcmp (status.drop 2) (command.drop 5) 4 ≠ 0 then ⟨-17, buffer, r17.2⟩ else
  let r18 := bulkWrite d r17.2 1 MSG_11 4
  if r18.1 ≠ 0 then ⟨-18, buffer, r18.2⟩ else
  let r19 := bulkRead d r18.2 1 MSG_06 2
  if r19.1 ≠ 0 then ⟨-19, buffer, r19.2⟩ else
  ⟨0, buffer, r19.2⟩

/-- Embedding of `writeRegister` (main.c 174-253). The buffer is `const`: it is returned
unchanged. -/
def writeRegister (d : Device) (log : List Transfer) (reg : Nat) (nWrites : Int)
    (buffer : List Nat) : Result :=
  let MSG_00 : List Nat := [0x05, 0x00, 0x10, 0x00]
  let MSG_01 : List Nat := [0x03, 0x03]
  let MSG_02 : List Nat := [0x0D, 0x00, 0x00, 0x00, 0x00, 0x00, 0x00, 0x00]
  let MSG_03 : List Nat := [0x07, 0x00, 0x03, 0x00, 0x71, 0x7F, 0x12, 0x01]
  let MSG_04 : List Nat := [0x05, 0x00, 0x09, 0x81, 0xED, 0xFE]
  let MSG_05 : List Nat := [0x03, 0x04, 0x00, 0x00]
  let MSG_06 : List Nat := [0x01, 0x00]
  let MSG_09 : List Nat := [0x03, 0x04, 0x84, 0x00]
  let MSG_11 : List Nat := [0x03, 0x04, 0x01, 0x00]
  let command : List Nat :=
    [0x08, 0x04, 0x04, 0x00, reg,
      toUint8 (Int.land nWrites 0xFF),
      toUint8 (Int.land (nWrites >>> (8 : Nat)) 0xFF),
      toUint8 (Int.land (nWrites >>> (16 : Nat)) 0xFF),
      toUint8 (Int.land (nWrites >>> (24 : Nat)) 0xFF)]
  let r1 := controlRead d log 0xE9 0x0000 0x0000 MSG_00 4
  if r1.1 ≠ 0 then ⟨-1, buffer, r1.2⟩ else
  let r2 := controlRead d r1.2 0xE6 0x0000 0x0000 MSG_01 2
  if r2.1 ≠ 0 then ⟨-2, buffer, r2.2⟩ else
  let r3 := controlRead d r2.2 0xE7 0x0000 0x0000 MSG_02 8
  if r3.1 ≠ 0 then ⟨-3, buffer, r3.2⟩ else
  let r4 := controlRead d r3.2 0xE9 0x0000 0x0000 MSG_00 4
  if r4.1 ≠ 0 then ⟨-4, buffer, r4.2⟩ else
  let r5 := bulkWrite d r4.2 1 MSG_03 8
  if r5.1 ≠ 0 then ⟨-5, buffer, r5.2⟩ else
  let r6 := bulkRead d r5.2 1 MSG_04 6
  if r6.1 ≠ 0 then ⟨-6, buffer, r6.2⟩ else
  let r7 := controlRead d r6.2 0xE9 0x0000 0x0000 MSG_00 4
  if r7.1 ≠ 0 then ⟨-7, buffer, r7.2⟩ else
  let r8 := controlRead d r7.2 0xE6 0x0000 0x0000 MSG_01 2
  if r8.1 ≠ 0 then ⟨-8, buffer, r8.2⟩ else
  let r9 := controlRead d r8.2 0xE7 0x0000 0x0000 MSG_02 8
  if r9.1 ≠ 0 then ⟨-9, buffer, r9.2⟩ else
  let r10 := controlRead d r9.2 0xE7 0x0000 0x0000 MSG_02 8
  if r10.1 ≠ 0 then ⟨-10, buffer, r10.2⟩ else
  let r11 := bulkWrite d r10.2 1 MSG_05 4
  if r11.1 ≠ 0 then ⟨-11, buffer, r11.2⟩ else
  let r12 := bulkRead d r11.2 1 MSG_06 2
  if r12.1 ≠ 0 then ⟨-12, buffer, r12.2⟩ else
  let r13 := bulkWrite d r12.2 1 command 9
  if r13.1 ≠ 0 then ⟨-13, buffer, r13.2⟩ else
  let r14 := bulkRead d r13.2 1 MSG_06 2
  if r14.1 ≠ 0 then ⟨-14, buffer, r14.2⟩ else
  let r15 := usb_bulk_write d r14.2 (USB_ENDPOINT_OUT ||| 2) buffer nWrites 5000
  if r15.1 ≠ nWrites then ⟨-15, buffer, r15.2⟩ else
  let r16 := bulkWrite d r15.2 1 MSG_09 4
  if r16.1 ≠ 0 then ⟨-16, buffer, r16.2⟩ else
  let r17 := usb_bulk_read d r16.2 (USB_ENDPOINT_IN ||| 1) 6 5000
  let status := r17.1.data
  if r17.1.returnCode ≠ 6 then ⟨-17, buffer, r17.2⟩ else
  if status.getD 0 0 ≠ 0x05 ∨ status.getD 1 0 ≠ 0x80
      ∨ memcmp (status.drop 2) (command.drop 5) 4 ≠ 0 then ⟨-17, buffer, r17.2⟩ else
  let r18 := bulkWrite d r17.2 1 MSG_11 4
  if r18.1 ≠ 0 then ⟨-18, buffer, r18.2⟩ else
  let r19 := bulkRead d r18.2 1 MSG_06 2
  if r19.1 ≠ 0 then ⟨-19, buffer, r19.2⟩ else
  ⟨0, buffer, r19.2⟩

/-! ## The protocol as the specification words it

A transaction is a table of steps: for each transfer, what is sent and what
answer is demanded. `readSteps` and `writeSteps` are written from the
specification; the theorems below relate them to `readRegister` and
`writeRegister`. -/

/-- One protocol step: the transfer and the answer demanded of the device. -/
inductive Step where
  /-- Vendor control read with value 0 and index 0 that must deliver `expected`. -/
  | controlIn (request : Nat) (expected : List Nat)
  /-- Bulk write of `size` bytes of `bytes` that must be written in full. -/
  | bulkOut (endpoint : Nat) (bytes : List Nat) (size : Int)
  /-- Bulk read that must deliver exactly the bytes `expected`. -/
  | bulkIn (endpoint : Nat) (expected : List Nat)
  /-- Bulk read that must deliver `size` bytes, of any value. -/
  | bulkInLen (endpoint : Nat) (size : Int)
  deriving DecidableEq, Repr

/-- The libusb call a step makes: every transfer has a 5000 ms timeout, control
reads have request type `0xC0`, IN endpoints carry the direction bit `0x80`. -/
def Step.transfer : Step → Transfer
  | .controlIn request expected => .control 0xC0 request 0 0 expected.length 5000
  | .bulkOut endpoint bytes size => .bulkWrite endpoint bytes size 5000
  | .bulkIn endpoint expected => .bulkRead (0x80 ||| endpoint) expected.length 5000
  | .bulkInLen endpoint size => .bulkRead (0x80 ||| endpoint) size 5000

/-- Whether the device answers a step as demanded; `log` ends with the step's
transfer. A read deviates when it reports an error, delivers another number of
bytes, or delivers a byte that differs; a write deviates when it does not
report the full length. -/
def Step.ok (d : Device) (log : List Transfer) : Step → Bool
  | .controlIn _ expected => decide (d.usb_control_msg log = .moved expected)
  | .bulkOut _ _ size => decide (d.usb_bulk_write log = size)
  | .bulkIn _ expected => decide (d.usb_bulk_read log = .moved expected)
  | .bulkInLen _ size => decide ((d.usb_bulk_read log).returnCode = size)

/-- The caller's buffer after a step: only the payload read stores into it. -/
def Step.receive (d : Device) (log : List Transfer) (buffer : List Nat) : Step → List Nat
  | .bulkInLen _ _ => (d.usb_bulk_read log).data ++ buffer.drop (d.usb_bulk_read log).data.length
  | _ => buffer

/-- The four bytes of `count`, least significant first (two's complement for a
negative `int`). -/
def le32 (count : Int) : List Nat :=
  [(count % 256).toNat, (count / 256 % 256).toNat, (count / 65536 % 256).toNat,
    (count / 16777216 % 256).toNat]

/-- The nineteen steps of a read transaction, as the specification lists them. -/
def readSteps (reg : Nat) (count : Int) : List Step :=
  [ .controlIn 0xE9 [0x05, 0x00, 0x10, 0x00],
    .controlIn 0xE6 [0x03, 0x03],
    .controlIn 0xE7 [0x0D, 0x00, 0x00, 0x00, 0x00, 0x00, 0x00, 0x00],
    .controlIn 0xE9 [0x05, 0x00, 0x10, 0x00],
    .bulkOut 1 [0x07, 0x00, 0x03, 0x00, 0x71, 0x7F, 0x12, 0x01] 8,
    .bulkIn 1 [0x05, 0x00, 0x09, 0x81, 0xED, 0xFE],
    .controlIn 0xE9 [0x05, 0x00, 0x10, 0x00],
    .controlIn 0xE6 [0x03, 0x03],
    .controlIn 0xE7 [0x0D, 0x00, 0x00, 0x00, 0x00, 0x00, 0x00, 0x00],
    .controlIn 0xE7 [0x0D, 0x00, 0x00, 0x00, 0x00, 0x00, 0x00, 0x00],
    .bulkOut 1 [0x03, 0x04, 0x00, 0x00] 4,
    .bulkIn 1 [0x01, 0x00],
    .bulkOut 1 ([0x08, 0x04, 0x05, 0x00, reg] ++ le32 count) 9,
    .bulkIn 1 [0x01, 0x00],
    .bulkInLen 6 count,
    .bulkOut 1 [0x03, 0x04, 0x85, 0x00] 4,
    .bulkIn 1 ([0x05, 0x40] ++ le32 count),
    .bulkOut 1 [0x03, 0x04, 0x01, 0x00] 4,
    .bulkIn 1 [0x01, 0x00] ]

/-- The nineteen steps of a write transaction, as the specification lists them. -/
def writeSteps (reg : Nat) (count : Int) (payload : List Nat) : List Step :=
  [ .controlIn 0xE9 [0x05, 0x00, 0x10, 0x00],
    .controlIn 0xE6 [0x03, 0x03],
    .controlIn 0xE7 [0x0D, 0x00, 0x00, 0x00, 0x00, 0x00, 0x00, 0x00],
    .controlIn 0xE9 [0x05, 0x00, 0x10, 0x00],
    .bulkOut 1 [0x07, 0x00, 0x03, 0x00, 0x71, 0x7F, 0x12, 0x01] 8,
    .bulkIn 1 [0x05, 0x00, 0x09, 0x81, 0xED, 0xFE],
    .controlIn 0xE9 [0x05, 0x00, 0x10, 0x00],
    .controlIn 0xE6 [0x03, 0x03],
    .controlIn 0xE7 [0x0D, 0x00, 0x00, 0x00, 0x00, 0x00, 0x00, 0x00],
    .controlIn 0xE7 [0x0D, 0x00, 0x00, 0x00, 0x00, 0x00, 0x00, 0x00],
    .bulkOut 1 [0x03, 0x04, 0x00, 0x00] 4,
    .bulkIn 1 [0x01, 0x00],
    .bulkOut 1 ([0x08, 0x04, 0x04, 0x00, reg] ++ le32 count) 9,
    .bulkIn 1 [0x01, 0x00],
    .bulkOut 2 payload count,
    .bulkOut 1 [0x03, 0x04, 0x84, 0x00] 4,
    .bulkIn 1 ([0x05, 0x80] ++ le32 count),
    .bulkOut 1 [0x03, 0x04, 0x01, 0x00] 4,
    .bulkIn 1 [0x01, 0x00] ]

/-- The number of leading steps of `steps` that the device answers as demanded
when they are issued in order after `log`: `passed = k` with `k` below the
number of steps says that steps `1..k` behave as expected and step `k+1`
deviates; `passed = steps.length` says the device is compliant throughout. -/
def passed (d : Device) : List Transfer → List Step → Nat
  | _, [] => 0
  | log, s :: rest =>
    if s.ok d (log ++ [s.transfer]) then passed d (log ++ [s.transfer]) rest + 1 else 0

/-- Fail-fast interpreter of a step table: issue the steps in order, stop at
the first step whose answer deviates and return minus its number (steps are
numbered from `idx + 1`), return 0 when every step passed. -/
def run (d : Device) : List Transfer → List Nat → Nat → List Step → Result
  | log, buffer, _, [] => ⟨0, buffer, log⟩
  | log, buffer, idx, s :: rest =>
    if s.ok d (log ++ [s.transfer]) then
      run d (log ++ [s.transfer]) (s.receive d (log ++ [s.transfer]) buffer) (idx + 1) rest
    else ⟨-((idx : Int) + 1), s.receive d (log ++ [s.transfer]) buffer, log ++ [s.transfer]⟩

/-- The caller's buffer after the steps `steps` have been issued after `log`. -/
def bufferAfter (d : Device) : List Transfer → List Nat → List Step → List Nat
  | _, buffer, [] => buffer
  | log, buffer, s :: rest =>
    bufferAfter d (log ++ [s.transfer]) (s.receive d (log ++ [s.transfer]) buffer) rest

/-! ## A simulated board

A reactive device used to exhibit concrete runs: it answers the probes with
the fixed constants, accepts every bulk write in full, acknowledges frames
written to endpoint 1, reports the count of the last command frame in its
status frame, keeps the bytes written to endpoint 2 and delivers them on
endpoint 6. -/

/-- The bytes most recently written to endpoint 2 (the first `size` bytes of
the buffer of that bulk write), or nothing. -/
def received (log : List Transfer) : List Nat :=
  log.foldl (fun acc t =>
    match t with
    | .bulkWrite ep bytes size _ => if ep = 2 then bytes.take size.toNat else acc
    | _ => acc) []

/-- The frame most recently written to endpoint 1. -/
def lastFrame (log : List Transfer) : List Nat :=
  log.foldl (fun acc t =>
    match t with
    | .bulkWrite ep bytes _ _ => if ep = 1 then bytes else acc
    | _ => acc) []

/-- The command frame (first byte `0x08`) most recently written to endpoint 1. -/
def lastCommand (log : List Transfer) : List Nat :=
  log.foldl (fun acc t =>
    match t with
    | .bulkWrite ep bytes _ _ => if ep = 1 ∧ bytes.head? = some 0x08 then bytes else acc
    | _ => acc) []

/-- Answer of the simulated board to a read on endpoint 1, from the frame last
written there. -/
def boardReply (log : List Transfer) : Outcome :=
  let frame := lastFrame log
  if frame = [0x07, 0x00, 0x03, 0x00, 0x71, 0x7F, 0x12, 0x01] then
    .moved [0x05, 0x00, 0x09, 0x81, 0xED, 0xFE]
  else if frame = [0x03, 0x04, 0x85, 0x00] then .moved ([0x05, 0x40] ++ (lastCommand log).drop 5)
  else if frame = [0x03, 0x04, 0x84, 0x00] then .moved ([0x05, 0x80] ++ (lastCommand log).drop 5)
  else if frame = [0x03, 0x04, 0x00, 0x00] ∨ frame = [0x03, 0x04, 0x01, 0x00]
      ∨ frame.head? = some 0x08 then .moved [0x01, 0x00]
  else .error 0

/-- The simulated board. -/
def board : Device where
  usb_control_msg := fun log =>
    match log.getLast? with
    | some (.control _ request _ _ _ _) =>
      if request = 0xE9 then .moved [0x05, 0x00, 0x10, 0x00]
      else if request = 0xE6 then .moved [0x03, 0x03]
      else if request = 0xE7 then .moved [0x0D, 0x00, 0x00, 0x00, 0x00, 0x00, 0x00, 0x00]
      else .error 0
    | _ => .error 0
  usb_bulk_write := fun log =>
    match log.getLast? with
    | some (.bulkWrite _ _ size _) => size
    | _ => -1
  usb_bulk_read := fun log =>
    match log.getLast? with
    | some (.bulkRead ep _ _) =>
      if ep = 0x81 then boardReply log
      else if ep = 0x86 then .moved (received log)
      else .error 0
    | _ => .error 0

/-- A device delivers on endpoint 6 the bytes most recently written to
endpoint 2. -/
def Echoes (d : Device) : Prop :=
  ∀ (log : List Transfer) (size : Int) (timeout : Nat),
    d.usb_bulk_read (log ++ [Transfer.bulkRead 0x86 size timeout]) = .moved (received log)

/-- Fault injection: the device `d`, except that in its answer to the transfer
that ends the log `at_` the byte at index `i` is replaced by `b`. -/
def corrupt (d : Device) (at_ : List Transfer) (i b : Nat) : Device where
  usb_control_msg := fun log =>
    if log = at_ then
      match d.usb_control_msg log with
      | .moved data => .moved (data.set i b)
      | o => o
    else d.usb_control_msg log
  usb_bulk_write := d.usb_bulk_write
  usb_bulk_read := fun log =>
    if log = at_ then
      match d.usb_bulk_read log with
      | .moved data => .moved (data.set i b)
      | o => o
    else d.usb_bulk_read log

/-- Fault injection: the device `d`, except that the IN transfer that ends the
log `at_` reports the transport error `-(errno+1)` and delivers nothing. -/
def failAt (d : Device) (at_ : List Transfer) (errno : Nat) : Device where
  usb_control_msg := fun log => if log = at_ then .error errno else d.usb_control_msg log
  usb_bulk_write := d.usb_bulk_write
  usb_bulk_read := fun log => if log = at_ then .error errno else d.usb_bulk_read log

/-- The bytes a step compares the device's answer with: none for a write and
for the payload read, whose content is not examined. -/
def Step.expected : Step → List Nat
  | .controlIn _ expected => expected
  | .bulkIn _ expected => expected
  | _ => []

/-- Whether a transfer is a bulk read on the IN endpoint numbered `endpoint`. -/
def Transfer.isBulkReadOn (endpoint : Nat) : Transfer → Bool
  | .bulkRead ep _ _ => ep == (USB_ENDPOINT_IN ||| endpoint)
  | _ => false

/-- The protocol step (1 to 8) of the specification that the `k`-th transfer
belongs to: pre-handshake 1-4, capability exchange 5-6, re-probe 7-10, mode set
11-12, command dispatch 13-14, payload transfer 15, status poll 16-17,
finalization 18-19. -/
def protocolStep (k : Nat) : Nat :=
  if k ≤ 4 then 1 else if k ≤ 6 then 2 else if k ≤ 10 then 3 else if k ≤ 12 then 4
  else if k ≤ 14 then 5 else if k ≤ 15 then 6 else if k ≤ 17 then 7 else 8

/-- The failure codes that report a deviating device response in each
protocol step. -/
def stepCodes : Nat → List Int
  | 1 => [-1, -2, -3, -4]
  | 2 => [-6]
  | 3 => [-7, -8, -9, -10]
  | 4 => [-12]
  | 5 => [-14]
  | 6 => [-15]
  | 7 => [-17]
  | 8 => [-19]
  | _ => []

/-! ## Reading the log -/

/-- The timeout, in milliseconds, a transfer is issued with. -/
def Transfer.timeout : Transfer → Nat
  | .control _ _ _ _ _ timeout => timeout
  | .bulkWrite _ _ _ timeout => timeout
  | .bulkRead _ _ timeout => timeout

/-- Whether a transfer is a bulk transfer. -/
def Transfer.isBulk : Transfer → Bool
  | .control _ _ _ _ _ _ => false
  | _ => true

/-- The endpoint number of a transfer: the endpoint address without its
direction bit `0x80`; control transfers use endpoint 0. -/
def Transfer.endpoint : Transfer → Nat
  | .control _ _ _ _ _ _ => 0
  | .bulkWrite ep _ _ _ => ep % 0x80
  | .bulkRead ep _ _ => ep % 0x80

/-- Whether a transfer is a bulk write on the OUT endpoint numbered `endpoint`. -/
def Transfer.isBulkWriteOn (endpoint : Nat) : Transfer → Bool
  | .bulkWrite ep _ _ _ => ep == (USB_ENDPOINT_OUT ||| endpoint)
  | _ => false

/-- The device `d`, except that the bulk read that ends the log `at_` delivers
the bytes `data`. -/
def replaceRead (d : Device) (at_ : List Transfer) (data : List Nat) : Device where
  usb_control_msg := d.usb_control_msg
  usb_bulk_write := d.usb_bulk_write
  usb_bulk_read := fun log => if log = at_ then .moved data else d.usb_bulk_read log

/-! ## The calls of the transaction bodies, as written

To speak of the array and the length passed in each helper call, the bodies of
`readRegister` and `writeRegister` are listed statement by statement; theorem
`readRegister_eq_runOps` shows that executing the list is the function. -/

/-- Size of the helpers' receive buffer, `BUFFER_SIZE` (main.c 28). -/
def BUFFER_SIZE : Nat := 4096

/-- One device-facing statement of a transaction body: a helper call with the
array and the length written in the source, or a direct libusb call. -/
inductive Op where
  /-- Call `controlRead(deviceHandle, bRequest, wValue, wIndex, expected, wLength)`. -/
  | controlReadCall (bRequest wValue wIndex : Nat) (expected : List Nat) (wLength : Nat)
  /-- Call `bulkWrite(deviceHandle, endpoint, buffer, wLength)`. -/
  | bulkWriteCall (endpoint : Nat) (buffer : List Nat) (wLength : Nat)
  /-- Call `bulkRead(deviceHandle, endpoint, expected, wLength)`. -/
  | bulkReadCall (endpoint : Nat) (expected : List Nat) (wLength : Nat)
  /-- Direct `usb_bulk_read` of `nReads` bytes on endpoint 6 into the caller's buffer. -/
  | payloadRead (nReads : Int)
  /-- Direct `usb_bulk_write` of `nWrites` bytes of the caller's buffer on endpoint 2. -/
  | payloadWrite (nWrites : Int)
  /-- Direct `usb_bulk_read` of the 6-byte status and its check against `ack`
  and `command + 5`. -/
  | statusRead (ack : Nat) (command : List Nat)
  deriving DecidableEq, Repr

/-- The array and the length argument of a helper call. -/
def Op.helperArgs : Op → Option (List Nat × Nat)
  | .controlReadCall _ _ _ expected wLength => some (expected, wLength)
  | .bulkWriteCall _ buffer wLength => some (buffer, wLength)
  | .bulkReadCall _ expected wLength => some (expected, wLength)
  | _ => none

/-- Execute one statement: whether it makes the function return, the caller's
buffer and the log afterwards. -/
def Op.exec (d : Device) (log : List Transfer) (buffer : List Nat) :
    Op → Bool × List Nat × List Transfer
  | .controlReadCall bRequest wValue wIndex expected wLength =>
    (decide ((controlRead d log bRequest wValue wIndex expected wLength).1 ≠ 0), buffer,
      (controlRead d log bRequest wValue wIndex expected wLength).2)
  | .bulkWriteCall endpoint bytes wLength =>
    (decide ((bulkWrite d log endpoint bytes wLength).1 ≠ 0), buffer,
      (bulkWrite d log endpoint bytes wLength).2)
  | .bulkReadCall endpoint expected wLength =>
    (decide ((bulkRead d log endpoint expected wLength).1 ≠ 0), buffer,
      (bulkRead d log endpoint expected wLength).2)
  | .payloadRead nReads =>
    (decide ((usb_bulk_read d log (USB_ENDPOINT_IN ||| 6) nReads 5000).1.returnCode ≠ nReads),
      (usb_bulk_read d log (USB_ENDPOINT_IN ||| 6) nReads 5000).1.data ++
        buffer.drop (usb_bulk_read d log (USB_ENDPOINT_IN ||| 6) nReads 5000).1.data.length,
      (usb_bulk_read d log (USB_ENDPOINT_IN ||| 6) nReads 5000).2)
  | .payloadWrite nWrites =>
    (decide ((usb_bulk_write d log (USB_ENDPOINT_OUT ||| 2) buffer nWrites 5000).1 ≠ nWrites),
      buffer, (usb_bulk_write d log (USB_ENDPOINT_OUT ||| 2) buffer nWrites 5000).2)
  | .statusRead ack command =>
    (decide ((usb_bulk_read d log (USB_ENDPOINT_IN ||| 1) 6 5000).1.returnCode ≠ 6 ∨
        ((usb_bulk_read d log (USB_ENDPOINT_IN ||| 1) 6 5000).1.data.getD 0 0 ≠ 0x05 ∨
          (usb_bulk_read d log (USB_ENDPOINT_IN ||| 1) 6 5000).1.data.getD 1 0 ≠ ack ∨
          memcmp ((usb_bulk_read d log (USB_ENDPOINT_IN ||| 1) 6 5000).1.data.drop 2)
            (command.drop 5) 4 ≠ 0)),
      buffer, (usb_bulk_read d log (USB_ENDPOINT_IN ||| 1) 6 5000).2)

/-- Execute the statements in order; the statement numbered `idx + 1` returns
`-(idx + 1)` when it fails, and the function returns 0 after the last one. -/
def runOps (d : Device) : List Transfer → List Nat → Nat → List Op → Result
  | log, buffer, _, [] => ⟨0, buffer, log⟩
  | log, buffer, idx, op :: rest =>
    if (op.exec d log buffer).1 then
      ⟨-((idx : Int) + 1), (op.exec d log buffer).2.1, (op.exec d log buffer).2.2⟩
    else runOps d (op.exec d log buffer).2.2 (op.exec d log buffer).2.1 (idx + 1) rest

/-- The statements of `readRegister` (main.c 116-165), with the arrays of
main.c 89-110. -/
def readOps (reg : Nat) (nReads : Int) : List Op :=
  let MSG_00 : List Nat := [0x05, 0x00, 0x10, 0x00]
  let MSG_01 : List Nat := [0x03, 0x03]
  let MSG_02 : List Nat := [0x0D, 0x00, 0x00, 0x00, 0x00, 0x00, 0x00, 0x00]
  let MSG_03 : List Nat := [0x07, 0x00, 0x03, 0x00, 0x71, 0x7F, 0x12, 0x01]
  let MSG_04 : List Nat := [0x05, 0x00, 0x09, 0x81, 0xED, 0xFE]
  let MSG_05 : List Nat := [0x03, 0x04, 0x00, 0x00]
  let MSG_06 : List Nat := [0x01, 0x00]
  let MSG_09 : List Nat := [0x03, 0x04, 0x85, 0x00]
  let MSG_11 : List Nat := [0x03, 0x04, 0x01, 0x00]
  let command : List Nat :=
    [0x08, 0x04, 0x05, 0x00, reg,
      toUint8 (Int.land nReads 0xFF),
      toUint8 (Int.land (nReads >>> (8 : Nat)) 0xFF),
      toUint8 (Int.land (nReads >>> (16 : Nat)) 0xFF),
      toUint8 (Int.land (nReads >>> (24 : Nat)) 0xFF)]
  [ .controlReadCall 0xE9 0x0000 0x0000 MSG_00 4,
    .controlReadCall 0xE6 0x0000 0x0000 MSG_01 2,
    .controlReadCall 0xE7 0x0000 0x0000 MSG_02 8,
    .controlReadCall 0xE9 0x0000 0x0000 MSG_00 4,
    .bulkWriteCall 1 MSG_03 8,
    .bulkReadCall 1 MSG_04 6,
    .controlReadCall 0xE9 0x0000 0x0000 MSG_00 4,
    .controlReadCall 0xE6 0x0000 0x0000 MSG_01 2,
    .controlReadCall 0xE7 0x0000 0x0000 MSG_02 8,
    .controlReadCall 0xE7 0x0000 0x0000 MSG_02 8,
    .bulkWriteCall 1 MSG_05 4,
    .bulkReadCall 1 MSG_06 2,
    .bulkWriteCall 1 command 9,
    .bulkReadCall 1 MSG_06 2,
    .payloadRead nReads,
    .bulkWriteCall 1 MSG_09 4,
    .statusRead 0x40 command,
    .bulkWriteCall 1 MSG_11 4,
    .bulkReadCall 1 MSG_06 2 ]

/-- The statements of `writeRegister` (main.c 201-250), with the arrays of
main.c 175-195. -/
def writeOps (reg : Nat) (nWrites : Int) : List Op :=
  let MSG_00 : List Nat := [0x05, 0x00, 0x10, 0x00]
  let MSG_01 : List Nat := [0x03, 0x03]
  let MSG_02 : List Nat := [0x0D, 0x00, 0x00, 0x00, 0x00, 0x00, 0x00, 0x00]
  let MSG_03 : List Nat := [0x07, 0x00, 0x03, 0x00, 0x71, 0x7F, 0x12, 0x01]
  let MSG_04 : List Nat := [0x05, 0x00, 0x09, 0x81, 0xED, 0xFE]
  let MSG_05 : List Nat := [0x03, 0x04, 0x00, 0x00]
  let MSG_06 : List Nat := [0x01, 0x00]
  let MSG_09 : List Nat := [0x03, 0x04, 0x84, 0x00]
  let MSG_11 : List Nat := [0x03, 0x04, 0x01, 0x00]
  let command : List Nat :=
    [0x08, 0x04, 0x04, 0x00, reg,
      toUint8 (Int.land nWrites 0xFF),
      toUint8 (Int.land (nWrites >>> (8 : Nat)) 0xFF),
      toUint8 (Int.land (nWrites >>> (16 : Nat)) 0xFF),
      toUint8 (Int.land (nWrites >>> (24 : Nat)) 0xFF)]
  [ .controlReadCall 0xE9 0x0000 0x0000 MSG_00 4,
    .controlReadCall 0xE6 0x0000 0x0000 MSG_01 2,
    .controlReadCall 0xE7 0x0000 0x0000 MSG_02 8,
    .controlReadCall 0xE9 0x0000 0x0000 MSG_00 4,
    .bulkWriteCall 1 MSG_03 8,
    .bulkReadCall 1 MSG_04 6,
    .controlReadCall 0xE9 0x0000 0x0000 MSG_00 4,
    .controlReadCall 0xE6 0x0000 0x0000 MSG_01 2,
    .controlReadCall 0xE7 0x0000 0x0000 MSG_02 8,
    .controlReadCall 0xE7 0x0000 0x0000 MSG_02 8,
    .bulkWriteCall 1 MSG_05 4,
    .bulkReadCall 1 MSG_06 2,
    .bulkWriteCall 1 command 9,
    .bulkReadCall 1 MSG_06 2,
    .payloadWrite nWrites,
    .bulkWriteCall 1 MSG_09 4,
    .statusRead 0x80 command,
    .bulkWriteCall 1 MSG_11 4,
    .bulkReadCall 1 MSG_06 2 ]

/-! ## The program `main`

Argument parsing (argtable2), the C library and `usbOpenDevice` are outside
the repository: what they return is given by an `Env`. What `main` does that
can be observed is collected in an `Exit`. -/

/-- Default vendor and product identifiers (main.c 26-27). -/
def VID : Nat := 0x1443
def PID : Nat := 0x0005

/-- Conversion of a `uint32` to `int`: the value with the same 32 bits. -/
def toInt (x : Nat) : Int :=
  if x % 2 ^ 32 < 2 ^ 31 then ((x % 2 ^ 32 : Nat) : Int) else ((x % 2 ^ 32 : Nat) : Int) - 2 ^ 32

/-- The messages `main` prints. -/
inductive Message where
  | insufficientMemory
  | usage
  | parseErrors
  | bothReadAndWrite
  | neitherReadNorWrite
  | cannotOpenFile
  | mustSpecifyReadLength
  | mustSpecifyWriteLength
  | cannotAllocate
  | shortFileRead
  | usbOpenDeviceFailed
  /-- The text `writeRegister() failed returnCode %d`, printed on both paths. -/
  | transactionFailed (returnCode : Int)
  deriving DecidableEq, Repr

/-- What `main` gets from its environment. -/
structure Env where
  /-- Result of `arg_nullcheck(argTable)`. -/
  arg_nullcheck : Int
  /-- Result of `arg_parse`, the number of errors. -/
  arg_parse : Int
  /-- The `count` fields of the options after parsing. -/
  helpCount : Int
  readCount : Int
  writeCount : Int
  fileCount : Int
  lenCount : Int
  vidCount : Int
  pidCount : Int
  /-- The values `ival[0]` of the numeric options. -/
  vidVal : Nat
  pidVal : Nat
  addrVal : Nat
  lenVal : Nat
  /-- Whether `fopen` returns a file. -/
  fopen : Bool
  /-- Result of `ftell` at the end of the file. -/
  ftell : Int
  /-- Whether `malloc` returns a block. -/
  malloc : Bool
  /-- Content of the allocated block, which `malloc` does not define. -/
  heap : List Nat
  /-- The bytes the input file holds. -/
  fileData : List Nat
  /-- The bytes standard input holds. -/
  stdinData : List Nat
  /-- Result of `usbOpenDevice(vid, pid, 1, 0, 0, &deviceHandle)`. -/
  usbOpenDevice : Nat → Nat → Int
  /-- The device behind the handle. -/
  device : Device

/-- What can be observed of a run of `main`. -/
structure Exit where
  /-- The value `main` returns. -/
  exitCode : Nat
  /-- Messages printed on `stdout`. -/
  stdout : List Message
  /-- Messages printed on `stderr`. -/
  stderr : List Message
  /-- Whether `writeRegister` (true) or `readRegister` (false) was called, and
  what it returned. -/
  transaction : Option (Bool × Int)
  /-- The bytes handed to `fwrite` on the output file or `stdout`. -/
  fwrite : Option (List Nat)
  /-- Whether `usb_close` was called, which happens for an opened device only. -/
  usbClosed : Bool
  /-- The transfers issued. -/
  log : List Transfer
  deriving DecidableEq, Repr

/-- Lines 393-431 of `main`: open the device, run the transaction, clean up. -/
def mainUsb (env : Env) (isWrite : Bool) (vid pid reg len : Nat) (buffer : List Nat) : Exit :=
  let exitCode : Nat := 0
  let returnCode := env.usbOpenDevice vid pid
  if returnCode ≠ 0 then
    ⟨9, [], [.usbOpenDeviceFailed], none, none, false, []⟩
  else if isWrite then
    let r := writeRegister env.device [] (reg % 256) (toInt len) buffer
    if r.returnCode ≠ 0 then
      ⟨exitCode, [], [.transactionFailed r.returnCode], some (true, r.returnCode), none, true,
        r.log⟩
    else ⟨exitCode, [], [], some (true, r.returnCode), none, true, r.log⟩
  else
    let r := readRegister env.device [] (reg % 256) (toInt len) buffer
    if r.returnCode ≠ 0 then
      ⟨exitCode, [], [.transactionFailed r.returnCode], some (false, r.returnCode), none, true,
        r.log⟩
    else
      ⟨exitCode, [], [], some (false, r.returnCode), some (r.buffer.take len), true, r.log⟩

/-- Lines 354-391 of `main`: allocate the buffer and, for a write, fill it from
the file or from standard input. `file` says whether a file was opened. -/
def mainBuffer (env : Env) (isWrite file : Bool) (vid pid reg len : Nat) : Exit :=
  if env.malloc = false then
    ⟨5, [], [.cannotAllocate], none, none, false, []⟩
  else if isWrite then
    if file then
      let bytesRead := env.fileData.take len
      let buffer := bytesRead ++ env.heap.drop bytesRead.length
      if bytesRead.length ≠ len then ⟨7, [], [.shortFileRead], none, none, false, []⟩
      else mainUsb env isWrite vid pid reg len buffer
    else
      let bytesRead := env.stdinData.take len
      let buffer := bytesRead ++ env.heap.drop bytesRead.length
      if bytesRead.length ≠ len then ⟨8, [], [], none, none, false, []⟩
      else mainUsb env isWrite vid pid reg len buffer
  else mainUsb env isWrite vid pid reg len env.heap

/-- Lines 317-352 of `main`: open the file, read the identifiers and the
register, find the length. -/
def mainFile (env : Env) (isWrite : Bool) : Exit :=
  if env.fileCount ≠ 0 ∧ env.fopen = false then
    ⟨6, [], [.cannotOpenFile], none, none, false, []⟩
  else
    let file : Bool := decide (env.fileCount ≠ 0)
    let vid := if env.vidCount ≠ 0 then env.vidVal % 2 ^ 16 else VID
    let pid := if env.pidCount ≠ 0 then env.pidVal % 2 ^ 16 else PID
    let reg := env.addrVal % 2 ^ 32
    if env.lenCount ≠ 0 then
      mainBuffer env isWrite file vid pid reg (env.lenVal % 2 ^ 32)
    else if isWrite = false then
      ⟨90, [], [.mustSpecifyReadLength], none, none, false, []⟩
    else if file = false then
      ⟨91, [], [.mustSpecifyWriteLength], none, none, false, []⟩
    else
      mainBuffer env isWrite file vid pid reg (env.ftell % 2 ^ 32).toNat

/-- Embedding of `main` (main.c 255-432). -/
def main (env : Env) : Exit :=
  if env.arg_nullcheck ≠ 0 then ⟨1, [.insufficientMemory], [], none, none, false, []⟩
  else
    let numErrors := env.arg_parse
    if env.helpCount > 0 then ⟨0, [.usage], [], none, none, false, []⟩
    else if numErrors > 0 then ⟨2, [.parseErrors], [], none, none, false, []⟩
    else if env.readCount ≠ 0 ∧ env.writeCount ≠ 0 then
      ⟨3, [], [.bothReadAndWrite], none, none, false, []⟩
    else if env.readCount ≠ 0 then mainFile env false
    else if env.writeCount ≠ 0 then mainFile env true
    else ⟨4, [], [.neitherReadNorWrite], none, none, false, []⟩

/-- The environment of `nexys2epp -r -a 5 -l 4` (read) or
`nexys2epp -w -a 5 -l 4` with `DE AD BE EF` on standard input (write), with
the given device behind the handle. -/
def sampleEnv (isWrite : Bool) (device : Device) : Env where
  arg_nullcheck := 0
  arg_parse := 0
  helpCount := 0
  readCount := if isWrite then 0 else 1
  writeCount := if isWrite then 1 else 0
  fileCount := 0
  lenCount := 1
  vidCount := 0
  pidCount := 0
  vidVal := 0
  pidVal := 0
  addrVal := 5
  lenVal := 4
  fopen := false
  ftell := 0
  malloc := true
  heap := [0, 0, 0, 0]
  fileData := []
  stdinData := [0xDE, 0xAD, 0xBE, 0xEF]
  usbOpenDevice := fun _ _ => 0
  device := device

/-! ## Lemmas on the helpers -/

theorem controlRead_log (d log rq v i e n) :
    (controlRead d log rq v i e n).2 = log ++ [Transfer.control 0xC0 rq v i n 5000] := by
  simp only [controlRead, usb_control_msg]
  split_ifs <;> rfl

theorem memcmp_eq_zero (a b : List Nat) (h : a.length = b.length) :
    memcmp a b b.length = 0 ↔ a = b := by
  unfold memcmp
  rw [← h, List.take_length, h, List.take_length]
  split_ifs with h1 <;> simp [h1]

theorem outcome_check (o : Outcome) (e : List Nat) :
    (o.returnCode = (e.length : Int) ∧ memcmp o.data e e.length = 0) ↔ o = .moved e := by
  cases o with
  | error errno =>
    simp only [Outcome.returnCode, Outcome.data]
    constructor
    · rintro ⟨h, -⟩; omega
    · intro h; cases h
  | moved data =>
    simp only [Outcome.returnCode, Outcome.data, Outcome.moved.injEq]
    constructor
    · rintro ⟨h, h2⟩
      exact (memcmp_eq_zero data e (by exact_mod_cast h)).1 h2
    · rintro rfl
      exact ⟨rfl, (memcmp_eq_zero data data rfl).2 rfl⟩

theorem requesttype_eq : (USB_ENDPOINT_IN ||| USB_TYPE_VENDOR ||| USB_RECIP_DEVICE) = 0xC0 := by decide

theorem controlRead_zero (d log rq v i e) :
    (controlRead d log rq v i e e.length).1 = 0 ↔
      d.usb_control_msg (log ++ [Transfer.control 0xC0 rq v i e.length 5000]) = .moved e := by
  rw [← outcome_check]
  simp only [controlRead, usb_control_msg, requesttype_eq]
  split_ifs with h1 h2 <;> simp_all

theorem bulkRead_log (d log ep e n) :
    (bulkRead d log ep e n).2 = log ++ [Transfer.bulkRead (0x80 ||| ep) n 5000] := by
  simp only [bulkRead, usb_bulk_read]
  split_ifs <;> rfl

theorem bulkRead_zero (d log ep e) :
    (bulkRead d log ep e e.length).1 = 0 ↔
      d.usb_bulk_read (log ++ [Transfer.bulkRead (0x80 ||| ep) e.length 5000]) = .moved e := by
  rw [← outcome_check]
  simp only [bulkRead, usb_bulk_read, USB_ENDPOINT_IN]
  split_ifs with h1 h2 <;> simp_all

theorem bulkWrite_log (d log ep b n) :
    (bulkWrite d log ep b n).2 = log ++ [Transfer.bulkWrite ep b n 5000] := by
  simp only [bulkWrite, usb_bulk_write, USB_ENDPOINT_OUT, Nat.zero_or]
  split_ifs <;> rfl

theorem bulkWrite_zero (d log ep b n) :
    (bulkWrite d log ep b n).1 = 0 ↔
      d.usb_bulk_write (log ++ [Transfer.bulkWrite ep b n 5000]) = n := by
  simp only [bulkWrite, usb_bulk_write, USB_ENDPOINT_OUT, Nat.zero_or]
  split_ifs with h1 <;> simp_all

theorem ldiff_255 (m : Nat) : Nat.ldiff 255 m = 255 - m % 256 := by
  apply Nat.eq_of_testBit_eq
  intro i
  have h1 : (255 : Nat) = 2 ^ 8 - 1 := by norm_num
  have h2 : 255 - m % 256 = 2 ^ 8 - (m % 256 + 1) := by omega
  have h3 : m % 256 < 2 ^ 8 := by omega
  rw [Nat.testBit_ldiff, h2, Nat.testBit_two_pow_sub_succ h3, h1, Nat.testBit_two_pow_sub_one]
  have h4 : (256 : Nat) = 2 ^ 8 := by norm_num
  rw [h4, Nat.testBit_mod_two_pow]
  by_cases hi : i < 8 <;> simp [hi]

theorem land_255 (x : Int) : Int.land x 0xFF = x % 256 := by
  cases x with
  | ofNat n =>
    show ((Nat.land n 255 : Nat) : Int) = (n : Int) % 256
    have : Nat.land n 255 = n % 256 := Nat.and_pow_two_sub_one_eq_mod n 8
    rw [this]; rfl
  | negSucc m =>
    show ((Nat.ldiff 255 m : Nat) : Int) = Int.negSucc m % 256
    rw [ldiff_255, Int.negSucc_eq]
    omega

theorem toUint8_land (x : Int) : toUint8 (Int.land x 0xFF) = (x % 256).toNat := by
  rw [land_255, toUint8, Int.emod_emod_of_dvd _ (dvd_refl _)]

theorem shift_8 (n : Int) : n >>> (8 : Nat) = n / 256 := by
  rw [Int.shiftRight_eq_div_pow]; norm_num
theorem shift_16 (n : Int) : n >>> (16 : Nat) = n / 65536 := by
  rw [Int.shiftRight_eq_div_pow]; norm_num
theorem shift_24 (n : Int) : n >>> (24 : Nat) = n / 16777216 := by
  rw [Int.shiftRight_eq_div_pow]; norm_num


theorem controlRead_ok (d log rq v i e n) (hn : e.length = n) :
    (controlRead d log rq v i e n).1 = 0 ↔
      d.usb_control_msg (log ++ [Transfer.control 0xC0 rq v i n 5000]) = .moved e := by
  subst hn; exact controlRead_zero d log rq v i e

theorem bulkRead_ok (d log ep e n) (hn : e.length = n) :
    (bulkRead d log ep e n).1 = 0 ↔
      d.usb_bulk_read (log ++ [Transfer.bulkRead (0x80 ||| ep) n 5000]) = .moved e := by
  subst hn; exact bulkRead_zero d log ep e

theorem status_check (o : Outcome) (ack a b c e : Nat) :
    (o.returnCode = 6 ∧ ¬ (o.data.getD 0 0 ≠ 0x05 ∨ o.data.getD 1 0 ≠ ack
        ∨ memcmp (o.data.drop 2) [a, b, c, e] 4 ≠ 0)) ↔ o = .moved [0x05, ack, a, b, c, e] := by
  cases o with
  | error errno =>
    simp only [Outcome.returnCode, Outcome.data]
    constructor
    · rintro ⟨h, -⟩; omega
    · intro h; cases h
  | moved data =>
    simp only [Outcome.returnCode, Outcome.data, Outcome.moved.injEq]
    constructor
    · rintro ⟨h, h2⟩
      have hl : data.length = 6 := by exact_mod_cast h
      match data, hl with
      | [x0, x1, x2, x3, x4, x5], _ =>
        simp [memcmp] at h2
        simp [h2]
    · rintro rfl
      simp [memcmp]

theorem status_ite {α : Type} (o : Outcome) (ack a b c e : Nat) (A B : α) :
    (if ¬ o.returnCode = 6 then A
      else if ¬ o.data.getD 0 0 = 0x05 ∨ ¬ o.data.getD 1 0 = ack
        ∨ ¬ memcmp (o.data.drop 2) [a, b, c, e] 4 = 0 then A else B)
      = if o = .moved [0x05, ack, a, b, c, e] then B else A := by
  have h := status_check o ack a b c e
  simp only [ne_eq] at h
  by_cases h1 : o.returnCode = 6
  · by_cases h2 : ¬ o.data.getD 0 0 = 0x05 ∨ ¬ o.data.getD 1 0 = ack
        ∨ ¬ memcmp (o.data.drop 2) [a, b, c, e] 4 = 0
    · have : ¬ o = .moved [0x05, ack, a, b, c, e] := fun hh => (h.2 hh).2 h2
      rw [if_neg (not_not.2 h1), if_pos h2, if_neg this]
    · have : o = .moved [0x05, ack, a, b, c, e] := h.1 ⟨h1, h2⟩
      rw [if_neg (not_not.2 h1), if_neg h2, if_pos this]
  · have : ¬ o = .moved [0x05, ack, a, b, c, e] := fun hh => h1 (h.2 hh).1
    rw [if_pos h1, if_neg this]

theorem or_129 : (128 ||| 1 : Nat) = 129 := by decide
theorem or_134 : (128 ||| 6 : Nat) = 134 := by decide

theorem readRegister_eq_run (d : Device) (log : List Transfer) (reg : Nat) (n : Int) (buffer : List Nat) :
    readRegister d log reg n buffer = run d log buffer 0 (readSteps reg n) := by
  have hE9 := fun l => controlRead_ok d l 0xE9 0 0 [0x05, 0x00, 0x10, 0x00] 4 rfl
  have hE6 := fun l => controlRead_ok d l 0xE6 0 0 [0x03, 0x03] 2 rfl
  have hE7 := fun l => controlRead_ok d l 0xE7 0 0 [0x0D, 0x00, 0x00, 0x00, 0x00, 0x00, 0x00, 0x00] 8 rfl
  have hR4 := fun l => bulkRead_ok d l 1 [0x05, 0x00, 0x09, 0x81, 0xED, 0xFE] 6 rfl
  have hR6 := fun l => bulkRead_ok d l 1 [0x01, 0x00] 2 rfl
  simp only [readRegister, ne_eq, hE9, hE6, hE7, hR4, hR6, bulkWrite_zero, controlRead_log, bulkRead_log,
    bulkWrite_log, usb_bulk_read, toUint8_land, shift_8, shift_16, shift_24, List.drop_succ_cons, List.drop_zero, status_ite,
    USB_ENDPOINT_IN, or_129, or_134, Nat.cast_ofNat]
  simp only [ite_not]
  simp only [readSteps, run, Step.ok, Step.transfer, Step.receive, le32, decide_eq_true_eq, List.cons_append, List.nil_append,
    List.length_cons, List.length_nil, or_129, or_134, Nat.cast_ofNat, Nat.reduceAdd, Nat.cast_zero, zero_add, Int.reduceNeg,
    Nat.cast_add, Nat.cast_one, Int.reduceAdd, Nat.cast_succ]

theorem writeRegister_eq_run (d : Device) (log : List Transfer) (reg : Nat) (n : Int) (buffer : List Nat) :
    writeRegister d log reg n buffer = run d log buffer 0 (writeSteps reg n buffer) := by
  have hE9 := fun l => controlRead_ok d l 0xE9 0 0 [0x05, 0x00, 0x10, 0x00] 4 rfl
  have hE6 := fun l => controlRead_ok d l 0xE6 0 0 [0x03, 0x03] 2 rfl
  have hE7 := fun l => controlRead_ok d l 0xE7 0 0 [0x0D, 0x00, 0x00, 0x00, 0x00, 0x00, 0x00, 0x00] 8 rfl
  have hR4 := fun l => bulkRead_ok d l 1 [0x05, 0x00, 0x09, 0x81, 0xED, 0xFE] 6 rfl
  have hR6 := fun l => bulkRead_ok d l 1 [0x01, 0x00] 2 rfl
  simp only [writeRegister, ne_eq, hE9, hE6, hE7, hR4, hR6, bulkWrite_zero, controlRead_log, bulkRead_log,
    bulkWrite_log, usb_bulk_read, usb_bulk_write, USB_ENDPOINT_OUT, Nat.zero_or, toUint8_land, shift_8, shift_16, shift_24, List.drop_succ_cons, List.drop_zero, status_ite,
    USB_ENDPOINT_IN, or_129, or_134, Nat.cast_ofNat]
  simp only [ite_not]
  simp only [readSteps, run, Step.ok, Step.transfer, Step.receive, le32, decide_eq_true_eq, List.cons_append, List.nil_append,
    List.length_cons, List.length_nil, or_129, or_134, Nat.cast_ofNat, Nat.reduceAdd, Nat.cast_zero, zero_add, Int.reduceNeg,
    Nat.cast_add, Nat.cast_one, Int.reduceAdd, Nat.cast_succ]

/-! ## Lemmas on the interpreter -/

theorem passed_le (d : Device) : ∀ (steps : List Step) (log : List Transfer),
    passed d log steps ≤ steps.length := by
  intro steps
  induction steps with
  | nil => intro log; simp [passed]
  | cons s rest ih =>
    intro log
    simp only [passed, List.length_cons]
    split_ifs
    · exact Nat.succ_le_succ (ih _)
    · omega

theorem run_returnCode (d : Device) : ∀ (steps : List Step) (log : List Transfer)
    (buffer : List Nat) (idx : Nat),
    (run d log buffer idx steps).returnCode =
      if passed d log steps = steps.length then 0
      else -(((idx + passed d log steps : Nat) : Int) + 1) := by
  intro steps
  induction steps with
  | nil => intro log buffer idx; simp [run, passed]
  | cons s rest ih =>
    intro log buffer idx
    simp only [run, passed, List.length_cons]
    by_cases h : s.ok d (log ++ [s.transfer]) = true
    · simp only [h, if_true, ih, Nat.add_right_cancel_iff]
      split_ifs
      · rfl
      · push_cast; ring
    · simp only [h, if_false]
      simp

theorem run_log (d : Device) : ∀ (steps : List Step) (log : List Transfer)
    (buffer : List Nat) (idx : Nat),
    (run d log buffer idx steps).log =
      log ++ (steps.take (passed d log steps + 1)).map Step.transfer := by
  intro steps
  induction steps with
  | nil => intro log buffer idx; simp [run, passed]
  | cons s rest ih =>
    intro log buffer idx
    simp only [run, passed]
    by_cases h : s.ok d (log ++ [s.transfer]) = true
    · simp only [h, if_true, ih, List.take_succ_cons, List.map_cons, List.append_assoc,
        List.singleton_append]
    · simp only [h, if_false]
      simp

theorem run_buffer (d : Device) : ∀ (steps : List Step) (log : List Transfer)
    (buffer : List Nat) (idx : Nat),
    (run d log buffer idx steps).buffer =
      bufferAfter d log buffer (steps.take (passed d log steps + 1)) := by
  intro steps
  induction steps with
  | nil => intro log buffer idx; simp [run, passed, bufferAfter]
  | cons s rest ih =>
    intro log buffer idx
    simp only [run, passed]
    by_cases h : s.ok d (log ++ [s.transfer]) = true
    · simp only [h, if_true, ih, List.take_succ_cons, bufferAfter]
    · simp only [h, if_false]
      simp [bufferAfter]

theorem run_log_getElem (d : Device) (steps : List Step) (log : List Transfer)
    (buffer : List Nat) (idx i : Nat) (h : i ≤ passed d log steps) :
    (run d log buffer idx steps).log[log.length + i]? = (steps[i]?).map Step.transfer := by
  rw [run_log, List.getElem?_append_right (Nat.le_add_right _ _), Nat.add_sub_cancel_left,
    List.getElem?_map, List.getElem?_take, if_pos (by omega)]

theorem run_log_take (d : Device) (steps : List Step) (log : List Transfer)
    (buffer : List Nat) (idx k : Nat) (h : k ≤ passed d log steps + 1) :
    (run d log buffer idx steps).log.take (log.length + k) =
      log ++ (steps.take k).map Step.transfer := by
  rw [run_log, List.take_append, ← List.map_take, List.take_take, Nat.min_eq_left h]

theorem passed_succ_iff (d : Device) : ∀ (steps : List Step) (log : List Transfer) (k : Nat)
    (s : Step), k ≤ passed d log steps → steps[k]? = some s →
    (k + 1 ≤ passed d log steps ↔
      s.ok d (log ++ (steps.take (k + 1)).map Step.transfer) = true) := by
  intro steps
  induction steps with
  | nil => intro log k s _ hs; simp at hs
  | cons s0 rest ih =>
    intro log k s hk hs
    cases k with
    | zero =>
      simp only [List.getElem?_cons_zero, Option.some.injEq] at hs
      subst hs
      simp only [passed, List.take_succ_cons, List.take_zero, List.map_cons, List.map_nil]
      split_ifs with h
      · simp [h]
      · simp [h]
    | succ k =>
      simp only [List.getElem?_cons_succ] at hs
      simp only [passed] at hk ⊢
      by_cases h : s0.ok d (log ++ [s0.transfer]) = true
      · simp only [h, if_true, Nat.add_le_add_iff_right] at hk ⊢
        rw [ih (log ++ [s0.transfer]) k s hk hs]
        simp only [List.take_succ_cons, List.map_cons, List.append_assoc, List.singleton_append]
      · rw [if_neg h] at hk
        omega

/-- Reading of `passed`: at least `k` steps pass exactly when each of the first
`k` steps is answered as demanded at the point where it is issued. -/
theorem passed_ge_iff (d : Device) (steps : List Step) (log : List Transfer) (k : Nat) :
    k ≤ passed d log steps ↔
      k ≤ steps.length ∧ ∀ (i : Nat) (s : Step), i < k → steps[i]? = some s →
        s.ok d (log ++ (steps.take (i + 1)).map Step.transfer) = true := by
  induction k with
  | zero => simp
  | succ k ih =>
    constructor
    · intro h
      have hk := ih.1 (by omega)
      refine ⟨le_trans h (passed_le d steps log), ?_⟩
      intro i s hi hs
      by_cases hik : i < k
      · exact hk.2 i s hik hs
      · have : i = k := by omega
        subst this
        exact (passed_succ_iff d steps log i s (by omega) hs).1 h
    · rintro ⟨hlen, hall⟩
      have hk : k ≤ passed d log steps := ih.2 ⟨by omega, fun i s hi hs => hall i s (by omega) hs⟩
      have hlt : k < steps.length := by omega
      have hs : steps[k]? = some steps[k] := List.getElem?_eq_getElem hlt
      exact (passed_succ_iff d steps log k _ hk hs).2 (hall k _ (by omega) hs)
/-! ## The little-endian count field -/

theorem le32_wrap (n : Int) (count : Nat) (hn : n % 2 ^ 32 = count) :
    le32 n = [count % 256, count / 256 % 256, count / 65536 % 256, count / 16777216 % 256] := by
  have h : n % 4294967296 = (count : Int) := by simpa using hn
  simp only [le32, List.cons.injEq, and_true]
  refine ⟨?_, ?_, ?_, ?_⟩ <;> omega

/-! ## What the answer to one step decides -/

theorem run_step_ok (d : Device) (steps : List Step) (log : List Transfer)
    (buffer : List Nat) (idx k : Nat) (s : Step)
    (hk : k ≤ passed d log steps) (hs : steps[k]? = some s) :
    (k + 1 ≤ passed d log steps ↔
      s.ok d ((run d log buffer idx steps).log.take (log.length + (k + 1))) = true) := by
  rw [run_log_take d steps log buffer idx (k + 1) (by omega)]
  exact passed_succ_iff d steps log k s hk hs

theorem run_stops (d : Device) (steps : List Step) (log : List Transfer)
    (buffer : List Nat) (idx k : Nat) (hk : passed d log steps = k) (hlt : k < steps.length) :
    (run d log buffer idx steps).returnCode = -(((idx + k : Nat) : Int) + 1) ∧
    (run d log buffer idx steps).log = log ++ (steps.take (k + 1)).map Step.transfer ∧
    (run d log buffer idx steps).log.length = log.length + (k + 1) := by
  have hlog := run_log d steps log buffer idx
  rw [hk] at hlog
  refine ⟨?_, hlog, ?_⟩
  · rw [run_returnCode, hk, if_neg (by omega)]
  · rw [hlog, List.length_append, List.length_map, List.length_take, Nat.min_eq_left (by omega)]

theorem run_continues (d : Device) (steps : List Step) (log : List Transfer)
    (buffer : List Nat) (k : Nat) (hk : k ≤ passed d log steps) :
    (run d log buffer 0 steps).returnCode = 0 ∨
      (run d log buffer 0 steps).returnCode ≤ -((k : Int) + 1) := by
  rw [run_returnCode]
  split_ifs
  · exact Or.inl rfl
  · right; push_cast; omega

/-! ## Fault injection -/

theorem ok_corrupt_of_ne (d : Device) (at_ : List Transfer) (i b : Nat) (s : Step)
    (h : List Transfer) (hne : h ≠ at_) :
    s.ok (corrupt d at_ i b) h = s.ok d h := by
  cases s <;> simp [Step.ok, corrupt, hne]

theorem passed_corrupt_ge (d : Device) (at_ : List Transfer) (i b : Nat) :
    ∀ (steps : List Step) (log : List Transfer) (k : Nat),
      k ≤ passed d log steps → k < steps.length →
      at_ = log ++ (steps.take (k + 1)).map Step.transfer →
      k ≤ passed (corrupt d at_ i b) log steps := by
  intro steps
  induction steps with
  | nil => intro log k _ hlt _; simp at hlt
  | cons s0 rest ih =>
    intro log k hk hlt hat
    cases k with
    | zero => exact Nat.zero_le _
    | succ k =>
      simp only [List.length_cons, Nat.add_lt_add_iff_right] at hlt
      have hok : s0.ok d (log ++ [s0.transfer]) = true := by
        by_contra h
        simp only [passed] at hk
        rw [if_neg h] at hk
        omega
      have hk2 : k ≤ passed d (log ++ [s0.transfer]) rest := by
        simp only [passed] at hk
        rw [if_pos hok] at hk
        omega
      have hat2 : at_ = (log ++ [s0.transfer]) ++ (rest.take (k + 1)).map Step.transfer := by
        rw [hat]; simp
      have hne : log ++ [s0.transfer] ≠ at_ := by
        intro h
        have := congrArg List.length h
        rw [hat2] at this
        simp only [List.length_append, List.length_map, List.length_take, List.length_cons,
          List.length_nil] at this
        omega
      have ih2 := ih (log ++ [s0.transfer]) k hk2 hlt hat2
      simp only [passed]
      rw [ok_corrupt_of_ne d at_ i b s0 _ hne, if_pos hok]
      omega

theorem set_ne_of_getElem? (e : List Nat) (i b x : Nat) (hx : e[i]? = some x) (hb : b ≠ x) :
    e.set i b ≠ e := by
  intro h
  have h1 : (e.set i b)[i]? = some b := by
    have hi : i < e.length := by
      rcases List.getElem?_eq_some.1 hx with ⟨hi, -⟩
      exact hi
    rw [List.getElem?_set_self hi]
  rw [h, hx] at h1
  exact hb (Option.some.inj h1).symm

theorem passed_corrupt_eq (d : Device) (steps : List Step) (log : List Transfer)
    (k i b x : Nat) (s : Step)
    (hk : k < passed d log steps) (hs : steps[k]? = some s)
    (hx : s.expected[i]? = some x) (hb : b ≠ x) :
    passed (corrupt d (log ++ (steps.take (k + 1)).map Step.transfer) i b) log steps = k := by
  have hlt : k < steps.length := lt_of_lt_of_le hk (passed_le d steps log)
  have hge := passed_corrupt_ge d (log ++ (steps.take (k + 1)).map Step.transfer) i b steps log k
    (by omega) hlt rfl
  have hd := (passed_succ_iff d steps log k s (by omega) hs).1 hk
  have hc := passed_succ_iff (corrupt d (log ++ (steps.take (k + 1)).map Step.transfer) i b)
    steps log k s hge hs
  have hbad : ¬ s.ok (corrupt d (log ++ (steps.take (k + 1)).map Step.transfer) i b)
      (log ++ (steps.take (k + 1)).map Step.transfer) = true := by
    cases s with
    | controlIn rq e =>
      simp only [Step.ok, decide_eq_true_eq] at hd ⊢
      simp only [corrupt, if_true, hd, Outcome.moved.injEq]
      exact set_ne_of_getElem? e i b x hx hb
    | bulkIn ep e =>
      simp only [Step.ok, decide_eq_true_eq] at hd ⊢
      simp only [corrupt, if_true, hd, Outcome.moved.injEq]
      exact set_ne_of_getElem? e i b x hx hb
    | bulkOut ep bytes size => simp [Step.expected] at hx
    | bulkInLen ep size => simp [Step.expected] at hx
  have : ¬ k + 1 ≤ passed (corrupt d (log ++ (steps.take (k + 1)).map Step.transfer) i b)
      log steps := fun h => hbad (hc.1 h)
  omega

theorem board_echoes : Echoes board := by
  intro log size timeout
  simp [board, received, List.foldl_append]

theorem board_empty_delivers_nothing (data : List Nat)
    (h : board.usb_bulk_read ((readRegister board [] 5 4 [0, 0, 0, 0]).log.take
      (([] : List Transfer).length + 15)) = .moved data) : (data.length : Int) ≠ 4 := by
  have h1 : board.usb_bulk_read ((readRegister board [] 5 4 [0, 0, 0, 0]).log.take
      (([] : List Transfer).length + 15)) = .moved [] := by decide
  rw [h1] at h
  cases h
  decide

/-! ## The simulated board is compliant

The hypotheses of the claims below can be met for every register and count. -/

theorem board_accepts_write (log : List Transfer) (reg : Nat) (count : Int)
    (payload : List Nat) : passed board log (writeSteps reg count payload) = 19 := by
  simp [passed, writeSteps, Step.ok, Step.transfer, board, boardReply, lastFrame, lastCommand,
    List.foldl_append, le32]

theorem board_accepts_read (log : List Transfer) (reg : Nat) (count : Int)
    (h : ((received log).length : Int) = count) :
    passed board log (readSteps reg count) = 19 := by
  simp [passed, readSteps, Step.ok, Step.transfer, board, boardReply, lastFrame, lastCommand,
    received, List.foldl_append, le32, Outcome.returnCode] at h ⊢
  exact h

/-! ## Claims -/

/-- C1: against a device that answers every step as the table `readSteps`
demands (`passed = 19`), `readRegister` returns 0 and has issued exactly the
nineteen listed transfers, in order: control reads `0xE9`, `0xE6`, `0xE7`,
`0xE9`; the capability frame and its 6-byte answer on endpoint 1; control reads
`0xE9`, `0xE6`, `0xE7`, `0xE7`; the mode frame and its ack; the 9-byte command
frame and its ack; a bulk read of `count` bytes on endpoint 6 (address `0x86`);
the poll frame `03 04 85 00` and the 6-byte status read; the finalize frame and
its ack. Control reads have value 0 and index 0. It holds for every `int` count. -/
theorem readRegister_compliant_transfers (d : Device) (log : List Transfer) (reg : Nat)
    (count : Int) (buffer : List Nat) (hd : passed d log (readSteps reg count) = 19) :
    (readRegister d log reg count buffer).returnCode = 0 ∧
    (readRegister d log reg count buffer).log = log ++
      [ .control 0xC0 0xE9 0 0 4 5000,
        .control 0xC0 0xE6 0 0 2 5000,
        .control 0xC0 0xE7 0 0 8 5000,
        .control 0xC0 0xE9 0 0 4 5000,
        .bulkWrite 1 [0x07, 0x00, 0x03, 0x00, 0x71, 0x7F, 0x12, 0x01] 8 5000,
        .bulkRead 0x81 6 5000,
        .control 0xC0 0xE9 0 0 4 5000,
        .control 0xC0 0xE6 0 0 2 5000,
        .control 0xC0 0xE7 0 0 8 5000,
        .control 0xC0 0xE7 0 0 8 5000,
        .bulkWrite 1 [0x03, 0x04, 0x00, 0x00] 4 5000,
        .bulkRead 0x81 2 5000,
        .bulkWrite 1 ([0x08, 0x04, 0x05, 0x00, reg] ++ le32 count) 9 5000,
        .bulkRead 0x81 2 5000,
        .bulkRead 0x86 count 5000,
        .bulkWrite 1 [0x03, 0x04, 0x85, 0x00] 4 5000,
        .bulkRead 0x81 6 5000,
        .bulkWrite 1 [0x03, 0x04, 0x01, 0x00] 4 5000,
        .bulkRead 0x81 2 5000 ] := by
  rw [readRegister_eq_run, run_returnCode, run_log, hd]
  constructor
  · simp [readSteps]
  · simp [readSteps, Step.transfer, le32, or_129, or_134]

/-- C1 witness: the simulated board, holding four bytes, read with reg 5 and
count 4. -/
theorem readRegister_compliant_transfers_witness :
    passed board [Transfer.bulkWrite 2 [0xDE, 0xAD, 0xBE, 0xEF] 4 5000] (readSteps 5 4) = 19 ∧
    (readRegister board [Transfer.bulkWrite 2 [0xDE, 0xAD, 0xBE, 0xEF] 4 5000] 5 4
        [0, 0, 0, 0]).returnCode = 0 :=
  ⟨by decide, (readRegister_compliant_transfers board _ 5 4 [0, 0, 0, 0] (by decide)).1⟩

/-- C2: `readRegister` and `writeRegister` are the same fail-fast interpreter
`run` applied to two tables of nineteen steps, and the write table is the read
table changed in exactly four entries: the command frame (transfer 13) has
`0x04` for `0x05` at byte 2; transfer 15 is a bulk write of the caller's
payload, `count` bytes, to endpoint 2 instead of a bulk read of `count` bytes
from endpoint 6; the poll frame (transfer 16) is `03 04 84 00` for
`03 04 85 00`; the status frame demanded at transfer 17 has `0x80` for `0x40`.
Every other transfer and demanded answer is the same entry of the same table,
and `run` derives the return code from the table alone. Against a compliant
device both return 0 and the two logs differ at transfers 13, 15 and 16 only. -/
theorem writeRegister_mirrors_readRegister (d : Device) (log : List Transfer) (reg : Nat)
    (count : Int) (payload buffer : List Nat) :
    readRegister d log reg count buffer = run d log buffer 0 (readSteps reg count) ∧
    writeRegister d log reg count payload = run d log payload 0 (writeSteps reg count payload) ∧
    writeSteps reg count payload =
      ((((readSteps reg count).set 12
            (.bulkOut 1 ([0x08, 0x04, 0x04, 0x00, reg] ++ le32 count) 9)).set 14
            (.bulkOut 2 payload count)).set 15
            (.bulkOut 1 [0x03, 0x04, 0x84, 0x00] 4)).set 16
            (.bulkIn 1 ([0x05, 0x80] ++ le32 count)) ∧
    (readSteps reg count)[12]? = some (.bulkOut 1 ([0x08, 0x04, 0x05, 0x00, reg] ++ le32 count) 9) ∧
    (readSteps reg count)[14]? = some (.bulkInLen 6 count) ∧
    (readSteps reg count)[15]? = some (.bulkOut 1 [0x03, 0x04, 0x85, 0x00] 4) ∧
    (readSteps reg count)[16]? = some (.bulkIn 1 ([0x05, 0x40] ++ le32 count)) ∧
    (passed d log (readSteps reg count) = 19 → passed d log (writeSteps reg count payload) = 19 →
      (readRegister d log reg count buffer).returnCode = 0 ∧
      (writeRegister d log reg count payload).returnCode = 0 ∧
      ∃ issued : List Transfer,
        (readRegister d log reg count buffer).log = log ++ issued ∧
        issued[12]? = some (.bulkWrite 1 ([0x08, 0x04, 0x05, 0x00, reg] ++ le32 count) 9 5000) ∧
        issued[14]? = some (.bulkRead 0x86 count 5000) ∧
        issued[15]? = some (.bulkWrite 1 [0x03, 0x04, 0x85, 0x00] 4 5000) ∧
        (writeRegister d log reg count payload).log = log ++
          ((issued.set 12
              (.bulkWrite 1 ([0x08, 0x04, 0x04, 0x00, reg] ++ le32 count) 9 5000)).set 14
              (.bulkWrite 2 payload count 5000)).set 15
              (.bulkWrite 1 [0x03, 0x04, 0x84, 0x00] 4 5000)) := by
  refine ⟨readRegister_eq_run d log reg count buffer,
    writeRegister_eq_run d log reg count payload, rfl, rfl, rfl, rfl, rfl, ?_⟩
  intro hr hw
  rw [readRegister_eq_run, writeRegister_eq_run, run_returnCode, run_returnCode, run_log,
    run_log, hr, hw]
  refine ⟨by simp [readSteps], by simp [writeSteps],
    ((readSteps reg count).take 20).map Step.transfer, rfl, ?_, ?_, ?_, ?_⟩ <;>
  simp [readSteps, writeSteps, Step.transfer, or_129, or_134]

/-- C2 witness: the simulated board is compliant for a read and for a write of
four bytes, and the eighth part of C2 applies to it. -/
theorem writeRegister_mirrors_readRegister_witness :
    (readRegister board [Transfer.bulkWrite 2 [1, 2, 3, 4] 4 5000] 5 4 [0, 0, 0, 0]).returnCode = 0 ∧
    (writeRegister board [Transfer.bulkWrite 2 [1, 2, 3, 4] 4 5000] 5 4
      [0xDE, 0xAD, 0xBE, 0xEF]).returnCode = 0 :=
  ⟨((writeRegister_mirrors_readRegister board [Transfer.bulkWrite 2 [1, 2, 3, 4] 4 5000] 5 4
      [0xDE, 0xAD, 0xBE, 0xEF] [0, 0, 0, 0]).2.2.2.2.2.2.2 (by decide) (by decide)).1,
   ((writeRegister_mirrors_readRegister board [Transfer.bulkWrite 2 [1, 2, 3, 4] 4 5000] 5 4
      [0xDE, 0xAD, 0xBE, 0xEF] [0, 0, 0, 0]).2.2.2.2.2.2.2 (by decide) (by decide)).2.1⟩

/-- C3: let `count < 2^32` be the unsigned value of the 32-bit argument
(`nReads` itself when it is non-negative, `nReads + 2^32` when a length of
`2^31` or more was converted to `int`). Whenever the first twelve transfers
are answered as demanded, the thirteenth transfer of `readRegister` is the bulk
write to endpoint 1 of the 9 bytes `08 04 05 00 reg c0 c1 c2 c3`, and that of
`writeRegister` is `08 04 04 00 reg c0 c1 c2 c3`, where each `ci` is at most
255 and `c0 + 256*c1 + 65536*c2 + 16777216*c3 = count`. -/
theorem command_frame_layout (d : Device) (log : List Transfer) (reg : Nat) (nReads : Int)
    (count : Nat) (buffer payload : List Nat)
    (hcount : count < 2 ^ 32) (hn : nReads % 2 ^ 32 = count)
    (hr : 12 ≤ passed d log (readSteps reg nReads))
    (hw : 12 ≤ passed d log (writeSteps reg nReads payload)) :
    ∃ c0 c1 c2 c3 : Nat, c0 ≤ 255 ∧ c1 ≤ 255 ∧ c2 ≤ 255 ∧ c3 ≤ 255 ∧
      c0 + 256 * c1 + 65536 * c2 + 16777216 * c3 = count ∧
      (readRegister d log reg nReads buffer).log[log.length + 12]? =
        some (.bulkWrite 1 [0x08, 0x04, 0x05, 0x00, reg, c0, c1, c2, c3] 9 5000) ∧
      (writeRegister d log reg nReads payload).log[log.length + 12]? =
        some (.bulkWrite 1 [0x08, 0x04, 0x04, 0x00, reg, c0, c1, c2, c3] 9 5000) := by
  have hc : count < 4294967296 := by simpa using hcount
  refine ⟨count % 256, count / 256 % 256, count / 65536 % 256, count / 16777216 % 256,
    by omega, by omega, by omega, by omega, by omega, ?_, ?_⟩
  · rw [readRegister_eq_run, run_log_getElem d _ log buffer 0 12 hr]
    simp [readSteps, Step.transfer, le32_wrap nReads count hn]
  · rw [writeRegister_eq_run, run_log_getElem d _ log payload 0 12 hw]
    simp [writeSteps, Step.transfer, le32_wrap nReads count hn]

/-- C3 witness: the `int` -2, whose unsigned 32-bit value is 4294967294, gives
a frame whose count bytes sum to that value. -/
theorem command_frame_layout_witness :
    ∃ c0 c1 c2 c3 : Nat, c0 ≤ 255 ∧ c1 ≤ 255 ∧ c2 ≤ 255 ∧ c3 ≤ 255 ∧
      c0 + 256 * c1 + 65536 * c2 + 16777216 * c3 = 4294967294 ∧
      (readRegister board [] 2 (-2) []).log[([] : List Transfer).length + 12]? =
        some (.bulkWrite 1 [0x08, 0x04, 0x05, 0x00, 2, c0, c1, c2, c3] 9 5000) ∧
      (writeRegister board [] 2 (-2) []).log[([] : List Transfer).length + 12]? =
        some (.bulkWrite 1 [0x08, 0x04, 0x04, 0x00, 2, c0, c1, c2, c3] 9 5000) :=
  command_frame_layout board [] 2 (-2) 4294967294 [] [] (by decide) (by decide)
    (by decide) (by decide)

/-- C4: when the first 16 transfers have succeeded, the command frame sent as
transfer 13 is `08 04 05 00 reg` followed by the four count bytes `le32 count`
(its bytes 5..8), and `readRegister` passes the status check (it sends the
finalize frame `03 04 01 00` as transfer 18 and does not return -17) when the
answer to the status read (transfer 17) is exactly the 6 bytes `05 40`
followed by those four bytes; for any other answer (an error, another length,
another first byte, another ack byte, another echo byte) it returns -17 having
issued 17 transfers, so no finalize frame is sent. In particular `05 80`
followed by the matching echo is rejected with -17. For `writeRegister` the
same holds with `0x80` for `0x40`. -/
theorem status_check_direction (d : Device) (log : List Transfer) (reg : Nat) (count : Int)
    (buffer payload : List Nat) :
    (16 ≤ passed d log (readSteps reg count) →
        (readRegister d log reg count buffer).log[log.length + 12]? =
          some (.bulkWrite 1 ([0x08, 0x04, 0x05, 0x00, reg] ++ le32 count) 9 5000) ∧
        (d.usb_bulk_read ((readRegister d log reg count buffer).log.take (log.length + 17)) =
            .moved ([0x05, 0x40] ++ le32 count) →
          (readRegister d log reg count buffer).log[log.length + 17]? =
            some (.bulkWrite 1 [0x03, 0x04, 0x01, 0x00] 4 5000) ∧
          (readRegister d log reg count buffer).returnCode ≠ -17) ∧
        (d.usb_bulk_read ((readRegister d log reg count buffer).log.take (log.length + 17)) ≠
            .moved ([0x05, 0x40] ++ le32 count) →
          (readRegister d log reg count buffer).returnCode = -17 ∧
          (readRegister d log reg count buffer).log.length = log.length + 17) ∧
        (d.usb_bulk_read ((readRegister d log reg count buffer).log.take (log.length + 17)) =
            .moved ([0x05, 0x80] ++ le32 count) →
          (readRegister d log reg count buffer).returnCode = -17)) ∧
    (16 ≤ passed d log (writeSteps reg count payload) →
        (writeRegister d log reg count payload).log[log.length + 12]? =
          some (.bulkWrite 1 ([0x08, 0x04, 0x04, 0x00, reg] ++ le32 count) 9 5000) ∧
        (d.usb_bulk_read ((writeRegister d log reg count payload).log.take (log.length + 17)) =
            .moved ([0x05, 0x80] ++ le32 count) →
          (writeRegister d log reg count payload).log[log.length + 17]? =
            some (.bulkWrite 1 [0x03, 0x04, 0x01, 0x00] 4 5000) ∧
          (writeRegister d log reg count payload).returnCode ≠ -17) ∧
        (d.usb_bulk_read ((writeRegister d log reg count payload).log.take (log.length + 17)) ≠
            .moved ([0x05, 0x80] ++ le32 count) →
          (writeRegister d log reg count payload).returnCode = -17 ∧
          (writeRegister d log reg count payload).log.length = log.length + 17)) := by
  constructor
  · intro h16
    have hstep := run_step_ok d (readSteps reg count) log buffer 0 16
      (.bulkIn 1 ([0x05, 0x40] ++ le32 count)) h16 rfl
    simp only [Step.ok, decide_eq_true_eq] at hstep
    have hpass : ∀ h : 17 ≤ passed d log (readSteps reg count),
        (run d log buffer 0 (readSteps reg count)).log[log.length + 17]? =
            some (.bulkWrite 1 [0x03, 0x04, 0x01, 0x00] 4 5000) ∧
          (run d log buffer 0 (readSteps reg count)).returnCode ≠ -17 := by
      intro h
      refine ⟨by rw [run_log_getElem d _ log buffer 0 17 h]; rfl, ?_⟩
      rcases run_continues d (readSteps reg count) log buffer 17 h with h0 | h0 <;> omega
    have hfail : ∀ h : ¬ 17 ≤ passed d log (readSteps reg count),
        (run d log buffer 0 (readSteps reg count)).returnCode = -17 ∧
          (run d log buffer 0 (readSteps reg count)).log.length = log.length + 17 := by
      intro h
      have h3 := run_stops d (readSteps reg count) log buffer 0 16 (by omega) (by simp [readSteps])
      exact ⟨by rw [h3.1]; rfl, h3.2.2⟩
    rw [readRegister_eq_run]
    refine ⟨?_, ?_, ?_, ?_⟩
    · rw [run_log_getElem d _ log buffer 0 12 (by omega)]; rfl
    · intro ho
      exact hpass (hstep.2 ho)
    · intro ho
      exact hfail (fun h => ho (hstep.1 h))
    · intro ho
      refine (hfail (fun h => ?_)).1
      have := hstep.1 h
      rw [this] at ho
      simp at ho
  · intro h16
    have hstep := run_step_ok d (writeSteps reg count payload) log payload 0 16
      (.bulkIn 1 ([0x05, 0x80] ++ le32 count)) h16 rfl
    simp only [Step.ok, decide_eq_true_eq] at hstep
    rw [writeRegister_eq_run]
    refine ⟨?_, ?_, ?_⟩
    · rw [run_log_getElem d _ log payload 0 12 (by omega)]; rfl
    · intro ho
      have h : 17 ≤ passed d log (writeSteps reg count payload) := hstep.2 ho
      refine ⟨by rw [run_log_getElem d _ log payload 0 17 h]; rfl, ?_⟩
      rcases run_continues d (writeSteps reg count payload) log payload 17 h with h0 | h0 <;> omega
    · intro ho
      have h : ¬ 17 ≤ passed d log (writeSteps reg count payload) :=
        fun h => ho (hstep.1 h)
      have h3 := run_stops d (writeSteps reg count payload) log payload 0 16 (by omega)
        (by simp [writeSteps])
      exact ⟨by rw [h3.1]; rfl, h3.2.2⟩

/-- C4 witness: the simulated board with its status answer changed to carry
the write ack byte `0x80` (the count echo `04 00 00 00` still matches) makes
`readRegister` return -17 after 17 transfers. -/
theorem status_check_direction_witness :
    (readRegister
      (corrupt board
        ([Transfer.bulkWrite 2 [1, 2, 3, 4] 4 5000] ++ ((readSteps 5 4).take 17).map Step.transfer)
        1 0x80)
      [Transfer.bulkWrite 2 [1, 2, 3, 4] 4 5000] 5 4 [0, 0, 0, 0]).returnCode = -17 :=
  ((status_check_direction
      (corrupt board
        ([Transfer.bulkWrite 2 [1, 2, 3, 4] 4 5000] ++ ((readSteps 5 4).take 17).map Step.transfer)
        1 0x80)
      [Transfer.bulkWrite 2 [1, 2, 3, 4] 4 5000] 5 4 [0, 0, 0, 0] []).1 (by decide)).2.2.2
    (by decide)

/-- C5: number the transfers in issue order and let `k` be one of the
fixed-exchange transfers 1..14, 16, 18, 19. If transfers `1..k-1` are answered
as demanded and transfer `k` deviates (`passed = k - 1`: a read that reports
an error, delivers another number of bytes or a byte different from the
constant; a write that does not report the full length), then `readRegister`
returns exactly `-k` and its log is the first `k` transfers of the table, so
nothing is issued after the `k`-th. The same holds for `writeRegister`. -/
theorem fixed_step_failure_code (d : Device) (log : List Transfer) (reg : Nat) (count : Int)
    (buffer payload : List Nat) (k : Nat)
    (hk : k ∈ [1, 2, 3, 4, 5, 6, 7, 8, 9, 10, 11, 12, 13, 14, 16, 18, 19]) :
    (passed d log (readSteps reg count) = k - 1 →
      (readRegister d log reg count buffer).returnCode = -(k : Int) ∧
      (readRegister d log reg count buffer).log =
        log ++ ((readSteps reg count).take k).map Step.transfer ∧
      (readRegister d log reg count buffer).log.length = log.length + k) ∧
    (passed d log (writeSteps reg count payload) = k - 1 →
      (writeRegister d log reg count payload).returnCode = -(k : Int) ∧
      (writeRegister d log reg count payload).log =
        log ++ ((writeSteps reg count payload).take k).map Step.transfer ∧
      (writeRegister d log reg count payload).log.length = log.length + k) := by
  have hk1 : 1 ≤ k ∧ k ≤ 19 := by
    simp only [List.mem_cons, List.mem_singleton, List.not_mem_nil, or_false] at hk
    omega
  constructor
  · intro hp
    have h := run_stops d (readSteps reg count) log buffer 0 (k - 1) hp
      (by simp only [readSteps, List.length_cons, List.length_nil]; omega)
    rw [Nat.sub_add_cancel hk1.1] at h
    rw [readRegister_eq_run]
    exact ⟨by rw [h.1]; push_cast; omega, h.2.1, h.2.2⟩
  · intro hp
    have h := run_stops d (writeSteps reg count payload) log payload 0 (k - 1) hp
      (by simp only [writeSteps, List.length_cons, List.length_nil]; omega)
    rw [Nat.sub_add_cancel hk1.1] at h
    rw [writeRegister_eq_run]
    exact ⟨by rw [h.1]; push_cast; omega, h.2.1, h.2.2⟩

/-- C5 witness: `readRegister(reg = 0x02, count = 2)` on a board whose first
control read delivers `05 00 10 01` returns -1 after that single transfer. -/
theorem fixed_step_failure_code_witness :
    (corrupt board [Transfer.control 0xC0 0xE9 0 0 4 5000] 3 0x01).usb_control_msg
        [Transfer.control 0xC0 0xE9 0 0 4 5000] = .moved [0x05, 0x00, 0x10, 0x01] ∧
    (readRegister (corrupt board [Transfer.control 0xC0 0xE9 0 0 4 5000] 3 0x01) [] 0x02 2
        [0, 0]).returnCode = -1 ∧
    (readRegister (corrupt board [Transfer.control 0xC0 0xE9 0 0 4 5000] 3 0x01) [] 0x02 2
        [0, 0]).log = [Transfer.control 0xC0 0xE9 0 0 4 5000] :=
  ⟨by decide,
   ((fixed_step_failure_code (corrupt board [Transfer.control 0xC0 0xE9 0 0 4 5000] 3 0x01) []
      0x02 2 [0, 0] [] 1 (by decide)).1 (by decide)).1,
   ((fixed_step_failure_code (corrupt board [Transfer.control 0xC0 0xE9 0 0 4 5000] 3 0x01) []
      0x02 2 [0, 0] [] 1 (by decide)).1 (by decide)).2.1⟩

/-- C6: let the device deliver on endpoint 6 the bytes it last received on
endpoint 2 (`Echoes`), answer every step of the write transaction as demanded,
and answer every step of the read transaction that immediately follows as
demanded. Then for every payload of exactly `count` bytes,
`writeRegister(reg, count, payload)` returns 0 and the following
`readRegister(reg, count)` returns 0 with the payload, unchanged, at the start
of the caller's buffer; the buffer equals the payload when it has room for no
more than `count` bytes. -/
theorem write_then_read_roundtrip (d : Device) (log : List Transfer) (reg : Nat) (count : Int)
    (payload buffer : List Nat)
    (hlen : (payload.length : Int) = count)
    (hecho : Echoes d)
    (hw : passed d log (writeSteps reg count payload) = 19)
    (hr : passed d (writeRegister d log reg count payload).log (readSteps reg count) = 19) :
    (writeRegister d log reg count payload).returnCode = 0 ∧
    (readRegister d (writeRegister d log reg count payload).log reg count buffer).returnCode = 0 ∧
    (readRegister d (writeRegister d log reg count payload).log reg count buffer).buffer =
      payload ++ buffer.drop payload.length ∧
    (buffer.length ≤ payload.length →
      (readRegister d (writeRegister d log reg count payload).log reg count buffer).buffer =
        payload) := by
  have hwl : (writeRegister d log reg count payload).log =
      log ++ (writeSteps reg count payload).map Step.transfer := by
    rw [writeRegister_eq_run, run_log, hw]; rfl
  have hbuf : (readRegister d (writeRegister d log reg count payload).log reg count
      buffer).buffer = payload ++ buffer.drop payload.length := by
    rw [readRegister_eq_run, run_buffer, hr, hwl]
    simp only [readSteps, List.take_succ_cons, List.take_nil, List.take_zero, bufferAfter,
      Step.receive, Step.transfer, or_134]
    have hcount : count.toNat = payload.length := by omega
    rw [hecho]
    simp [received, writeSteps, Step.transfer, Outcome.data, List.foldl_append, hcount]
  refine ⟨?_, ?_, hbuf, ?_⟩
  · rw [writeRegister_eq_run, run_returnCode, hw]; rfl
  · rw [readRegister_eq_run, run_returnCode, hr]; rfl
  · intro hle
    rw [hbuf, List.drop_eq_nil_of_le hle, List.append_nil]

/-- C6 witness: the simulated board echoes, and writing `DE AD BE EF` to reg 5
then reading 4 bytes from reg 5 gives back `DE AD BE EF`. -/
theorem write_then_read_roundtrip_witness :
    Echoes board ∧
    (writeRegister board [] 5 4 [0xDE, 0xAD, 0xBE, 0xEF]).returnCode = 0 ∧
    (readRegister board (writeRegister board [] 5 4 [0xDE, 0xAD, 0xBE, 0xEF]).log 5 4
        [0, 0, 0, 0]).returnCode = 0 ∧
    (readRegister board (writeRegister board [] 5 4 [0xDE, 0xAD, 0xBE, 0xEF]).log 5 4
        [0, 0, 0, 0]).buffer = [0xDE, 0xAD, 0xBE, 0xEF] :=
  ⟨board_echoes,
   (write_then_read_roundtrip board [] 5 4 [0xDE, 0xAD, 0xBE, 0xEF] [0, 0, 0, 0] (by decide)
      board_echoes (by decide) (by decide)).1,
   (write_then_read_roundtrip board [] 5 4 [0xDE, 0xAD, 0xBE, 0xEF] [0, 0, 0, 0] (by decide)
      board_echoes (by decide) (by decide)).2.1,
   (write_then_read_roundtrip board [] 5 4 [0xDE, 0xAD, 0xBE, 0xEF] [0, 0, 0, 0] (by decide)
      board_echoes (by decide) (by decide)).2.2.2 (by decide)⟩

/-- C7: for every `int` count and payload, `writeRegister` returns 0 against a
device that answers all nineteen steps of `writeSteps` as demanded: it accepts
the handshake, reports `count` bytes written for the payload on endpoint 2
(transfer 15), and answers the status poll (transfer 17) with `05 80` followed
by the four little-endian bytes of `count`. -/
theorem writeRegister_success (d : Device) (log : List Transfer) (reg : Nat) (count : Int)
    (payload : List Nat) (hd : passed d log (writeSteps reg count payload) = 19) :
    (writeRegister d log reg count payload).returnCode = 0 ∧
    (writeSteps reg count payload)[14]? = some (.bulkOut 2 payload count) ∧
    (writeSteps reg count payload)[16]? = some (.bulkIn 1 ([0x05, 0x80] ++ le32 count)) := by
  refine ⟨?_, rfl, rfl⟩
  rw [writeRegister_eq_run, run_returnCode, hd]
  simp [writeSteps]

/-- C7 witness: reg `0x05`, count 4, payload `DE AD BE EF` on the simulated
board, whose status answer is `05 80 04 00 00 00`. -/
theorem writeRegister_success_witness :
    board.usb_bulk_read ([] ++ ((writeSteps 0x05 4 [0xDE, 0xAD, 0xBE, 0xEF]).take 17).map
        Step.transfer) = .moved [0x05, 0x80, 0x04, 0x00, 0x00, 0x00] ∧
    (writeRegister board [] 0x05 4 [0xDE, 0xAD, 0xBE, 0xEF]).returnCode = 0 :=
  ⟨by decide, (writeRegister_success board [] 0x05 4 [0xDE, 0xAD, 0xBE, 0xEF] (by decide)).1⟩

/-- Support for C8: for a count that is not negative the property holds.
Whenever `readRegister` returns 0 it has issued exactly one bulk read on endpoint 6
(transfer 15, of `count` bytes), that read delivered exactly `count` bytes, and
the caller's buffer on return is those bytes, in order and unmodified, followed
by whatever the buffer held beyond them: no later step stores into the buffer. -/
theorem readRegister_buffer_on_success (d : Device) (log : List Transfer) (reg : Nat)
    (count : Int) (buffer : List Nat) (hc : 0 ≤ count)
    (h0 : (readRegister d log reg count buffer).returnCode = 0) :
    ((readRegister d log reg count buffer).log.drop log.length).filter (Transfer.isBulkReadOn 6)
      = [.bulkRead 0x86 count 5000] ∧
    (readRegister d log reg count buffer).log[log.length + 14]? =
      some (.bulkRead 0x86 count 5000) ∧
    ∃ data : List Nat,
      d.usb_bulk_read ((readRegister d log reg count buffer).log.take (log.length + 15)) =
        .moved data ∧
      (data.length : Int) = count ∧
      (readRegister d log reg count buffer).buffer = data ++ buffer.drop data.length ∧
      (readRegister d log reg count buffer).buffer.take count.toNat = data := by
  rw [readRegister_eq_run] at h0 ⊢
  have hp : passed d log (readSteps reg count) = 19 := by
    rw [run_returnCode] at h0
    by_contra h
    have h19 : (readSteps reg count).length = 19 := rfl
    rw [h19, if_neg h] at h0
    omega
  have htake := run_log_take d (readSteps reg count) log buffer 0 15 (by omega)
  have hstep := (run_step_ok d (readSteps reg count) log buffer 0 14 (.bulkInLen 6 count)
    (by omega) rfl).1 (by omega)
  simp only [Step.ok, decide_eq_true_eq] at hstep
  have hbuf : (run d log buffer 0 (readSteps reg count)).buffer =
      (d.usb_bulk_read ((run d log buffer 0 (readSteps reg count)).log.take
        (log.length + 15))).data ++ buffer.drop (d.usb_bulk_read
          ((run d log buffer 0 (readSteps reg count)).log.take (log.length + 15))).data.length := by
    rw [htake, run_buffer, hp]
    simp only [readSteps, List.take_succ_cons, List.take_nil, List.take_zero, bufferAfter,
      Step.receive, Step.transfer, List.map_cons, List.map_nil, List.append_assoc,
      List.singleton_append, List.cons_append, List.nil_append]
  refine ⟨?_, ?_, ?_⟩
  · rw [run_log, List.drop_left, hp]
    simp [readSteps, Step.transfer, Transfer.isBulkReadOn, USB_ENDPOINT_IN, or_129, or_134]
  · rw [run_log_getElem d _ log buffer 0 14 (by omega)]; rfl
  · rw [hbuf]
    cases ho : d.usb_bulk_read ((run d log buffer 0 (readSteps reg count)).log.take
        (log.length + 15)) with
    | error errno =>
      rw [ho] at hstep
      simp only [Outcome.returnCode] at hstep
      omega
    | moved data =>
      rw [ho] at hstep
      simp only [Outcome.returnCode] at hstep
      have hl : count.toNat = data.length := by omega
      exact ⟨data, rfl, hstep, rfl, by simp only [Outcome.data, hl, List.take_left]⟩

/-- Instance of the lemma above: the simulated board holding `DE AD BE EF`,
read with count 4 into a buffer of four zero bytes. -/
theorem readRegister_buffer_on_success_witness :
    (readRegister board [Transfer.bulkWrite 2 [0xDE, 0xAD, 0xBE, 0xEF] 4 5000] 5 4
        [0, 0, 0, 0]).returnCode = 0 ∧
    (readRegister board [Transfer.bulkWrite 2 [0xDE, 0xAD, 0xBE, 0xEF] 4 5000] 5 4
        [0, 0, 0, 0]).buffer = [0xDE, 0xAD, 0xBE, 0xEF] ∧
    ((readRegister board [Transfer.bulkWrite 2 [0xDE, 0xAD, 0xBE, 0xEF] 4 5000] 5 4
        [0, 0, 0, 0]).log.drop
          [Transfer.bulkWrite 2 [0xDE, 0xAD, 0xBE, 0xEF] 4 5000].length).filter
      (Transfer.isBulkReadOn 6) = [.bulkRead 0x86 4 5000] :=
  ⟨by decide, by decide,
   (readRegister_buffer_on_success board [Transfer.bulkWrite 2 [0xDE, 0xAD, 0xBE, 0xEF] 4 5000]
      5 4 [0, 0, 0, 0] (by decide) (by decide)).1⟩

/-- C8: the code breaks the claim at the count -1, the `int` that `main`
passes for the 32-bit length `0xFFFFFFFF`. The payload read fails with the
transport error -1, which equals the count, so the test
`returnCode != nReads` (main.c 147) does not see the failure: `readRegister`
returns 0 although the read on endpoint 6 delivered no byte, and the caller's
buffer `07 07` does not hold bytes read from the register. -/
theorem success_without_payload :
    (failAt board (((readSteps 5 (-1)).take 15).map Step.transfer) 0).usb_bulk_read
      ((readRegister (failAt board (((readSteps 5 (-1)).take 15).map Step.transfer) 0)
        [] 5 (-1) [7, 7]).log.take 15) = .error 0 ∧
    (readRegister (failAt board (((readSteps 5 (-1)).take 15).map Step.transfer) 0)
      [] 5 (-1) [7, 7]).returnCode = 0 ∧
    (readRegister (failAt board (((readSteps 5 (-1)).take 15).map Step.transfer) 0)
      [] 5 (-1) [7, 7]).buffer = [7, 7] := by
  rw [readRegister_eq_run]
  decide

/-- Support for C9: for a count that is not negative the property holds.
When transfers 1..14 have succeeded and the payload transfer did not move exactly `count`
bytes (the read on endpoint 6 reported an error or delivered fewer or more
bytes; the write on endpoint 2 returned anything but `count`), `readRegister`
and `writeRegister` return -15 having issued 15 transfers: the status-poll
frame, which would be the 16th, is never sent. -/
theorem payload_transfer_failure (d : Device) (log : List Transfer) (reg : Nat) (count : Int)
    (buffer payload : List Nat) (hc : 0 ≤ count) :
    (14 ≤ passed d log (readSteps reg count) →
      (∀ data : List Nat,
        d.usb_bulk_read ((readRegister d log reg count buffer).log.take (log.length + 15)) =
          .moved data → (data.length : Int) ≠ count) →
      (readRegister d log reg count buffer).returnCode = -15 ∧
      (readRegister d log reg count buffer).log[log.length + 14]? =
        some (.bulkRead 0x86 count 5000) ∧
      (readRegister d log reg count buffer).log.length = log.length + 15) ∧
    (14 ≤ passed d log (writeSteps reg count payload) →
      d.usb_bulk_write ((writeRegister d log reg count payload).log.take
          (log.length + 15)) ≠ count →
      (writeRegister d log reg count payload).returnCode = -15 ∧
      (writeRegister d log reg count payload).log[log.length + 14]? =
        some (.bulkWrite 2 payload count 5000) ∧
      (writeRegister d log reg count payload).log.length = log.length + 15) := by
  constructor
  · intro h14
    have hstep := run_step_ok d (readSteps reg count) log buffer 0 14 (.bulkInLen 6 count) h14 rfl
    simp only [Step.ok, decide_eq_true_eq] at hstep
    rw [readRegister_eq_run]
    intro ho
    have hne : (d.usb_bulk_read ((run d log buffer 0 (readSteps reg count)).log.take
        (log.length + 15))).returnCode ≠ count := by
      cases hcase : d.usb_bulk_read ((run d log buffer 0 (readSteps reg count)).log.take
          (log.length + 15)) with
      | error errno => simp only [Outcome.returnCode]; omega
      | moved data => exact ho data hcase
    have hp : passed d log (readSteps reg count) = 14 := by
      have : ¬ 15 ≤ passed d log (readSteps reg count) := fun h => hne (hstep.1 h)
      omega
    have h3 := run_stops d (readSteps reg count) log buffer 0 14 hp (by simp [readSteps])
    exact ⟨by rw [h3.1]; rfl, by rw [run_log_getElem d _ log buffer 0 14 h14]; rfl, h3.2.2⟩
  · intro h14
    have hstep := run_step_ok d (writeSteps reg count payload) log payload 0 14
      (.bulkOut 2 payload count) h14 rfl
    simp only [Step.ok, decide_eq_true_eq] at hstep
    rw [writeRegister_eq_run]
    intro ho
    have hp : passed d log (writeSteps reg count payload) = 14 := by
      have : ¬ 15 ≤ passed d log (writeSteps reg count payload) := fun h => ho (hstep.1 h)
      omega
    have h3 := run_stops d (writeSteps reg count payload) log payload 0 14 hp
      (by simp [writeSteps])
    exact ⟨by rw [h3.1]; rfl, by rw [run_log_getElem d _ log payload 0 14 h14]; rfl, h3.2.2⟩

/-- Instance of the lemma above: the simulated board holding no bytes delivers
0 bytes on endpoint 6, so a read of 4 bytes returns -15 after 15 transfers. -/
theorem payload_transfer_failure_witness :
    (readRegister board [] 5 4 [0, 0, 0, 0]).returnCode = -15 ∧
    (readRegister board [] 5 4 [0, 0, 0, 0]).log.length = 15 :=
  ⟨((payload_transfer_failure board [] 5 4 [0, 0, 0, 0] [] (by decide)).1 (by decide)
      board_empty_delivers_nothing).1,
   ((payload_transfer_failure board [] 5 4 [0, 0, 0, 0] [] (by decide)).1 (by decide)
      board_empty_delivers_nothing).2.2⟩

/-- C9: the code breaks the claim at the count -22, the `int` that `main`
passes for the 32-bit length `4294967274`. Transfers 1..14 succeed and the
payload read reports the transport error -22, delivering nothing; the test
`returnCode != nReads` (main.c 147) misses it, so `readRegister` does not
return -15 and sends the status-poll frame `03 04 85 00` as transfer 16. -/
theorem transport_error_equal_to_count :
    14 ≤ passed (failAt board (((readSteps 5 (-22)).take 15).map Step.transfer) 21) []
      (readSteps 5 (-22)) ∧
    (failAt board (((readSteps 5 (-22)).take 15).map Step.transfer) 21).usb_bulk_read
      ((readRegister (failAt board (((readSteps 5 (-22)).take 15).map Step.transfer) 21)
        [] 5 (-22) []).log.take 15) = .error 21 ∧
    (Outcome.error 21).returnCode = -22 ∧
    (readRegister (failAt board (((readSteps 5 (-22)).take 15).map Step.transfer) 21)
      [] 5 (-22) []).returnCode ≠ -15 ∧
    (readRegister (failAt board (((readSteps 5 (-22)).take 15).map Step.transfer) 21)
      [] 5 (-22) []).log[15]? = some (.bulkWrite 1 [0x03, 0x04, 0x85, 0x00] 4 5000) := by
  rw [readRegister_eq_run]
  decide

/-- C10, as the code has it: take a device that answers every step as
demanded and change one byte (index `i`, new value `b` different from the
expected byte `x`) of its answer to the `k`-th transfer, where `k` is one of
the transfers whose answer is compared with a frame: 1-4 (step 1), 6 (step 2),
7-10 (step 3), 12 (step 4), 14 (step 5), 17 (step 7), 19 (step 8). Then
`readRegister` and `writeRegister` fail with exactly `-k`, a code of the
protocol step that transfer belongs to and of no other step. The payload read
(step 6, transfer 15) is left out: the value of its bytes is not examined. -/
theorem corrupted_response_code (d : Device) (log : List Transfer) (reg : Nat) (count : Int)
    (buffer payload : List Nat) (k i b x : Nat) (s : Step)
    (hk : k ∈ [1, 2, 3, 4, 6, 7, 8, 9, 10, 12, 14, 17, 19]) (hb : b ≠ x)
    (hx : s.expected[i]? = some x) :
    (passed d log (readSteps reg count) = 19 → (readSteps reg count)[k - 1]? = some s →
      (readRegister (corrupt d (log ++ ((readSteps reg count).take k).map Step.transfer) i b)
        log reg count buffer).returnCode = -(k : Int)) ∧
    (passed d log (writeSteps reg count payload) = 19 →
      (writeSteps reg count payload)[k - 1]? = some s →
      (writeRegister (corrupt d (log ++ ((writeSteps reg count payload).take k).map
        Step.transfer) i b) log reg count payload).returnCode = -(k : Int)) ∧
    -(k : Int) ∈ stepCodes (protocolStep k) ∧
    ∀ j ∈ [1, 2, 3, 4, 5, 6, 7, 8], j ≠ protocolStep k → -(k : Int) ∉ stepCodes j := by
  have hk1 : 1 ≤ k ∧ k ≤ 19 := by
    simp only [List.mem_cons, List.mem_singleton, List.not_mem_nil, or_false] at hk
    omega
  have hkk : k - 1 + 1 = k := Nat.sub_add_cancel hk1.1
  refine ⟨?_, ?_, ?_, ?_⟩
  · intro hp hs
    have h := passed_corrupt_eq d (readSteps reg count) log (k - 1) i b x s (by omega) hs hx hb
    rw [hkk] at h
    have h3 := run_stops _ (readSteps reg count) log buffer 0 (k - 1) h
      (by simp only [readSteps, List.length_cons, List.length_nil]; omega)
    rw [readRegister_eq_run, h3.1]; push_cast; omega
  · intro hp hs
    have h := passed_corrupt_eq d (writeSteps reg count payload) log (k - 1) i b x s (by omega)
      hs hx hb
    rw [hkk] at h
    have h3 := run_stops _ (writeSteps reg count payload) log payload 0 (k - 1) h
      (by simp only [writeSteps, List.length_cons, List.length_nil]; omega)
    rw [writeRegister_eq_run, h3.1]; push_cast; omega
  · simp only [List.mem_cons, List.mem_singleton, List.not_mem_nil, or_false] at hk
    rcases hk with rfl | rfl | rfl | rfl | rfl | rfl | rfl | rfl | rfl | rfl | rfl | rfl | rfl <;>
      decide
  · simp only [List.mem_cons, List.mem_singleton, List.not_mem_nil, or_false] at hk
    rcases hk with rfl | rfl | rfl | rfl | rfl | rfl | rfl | rfl | rfl | rfl | rfl | rfl | rfl <;>
      decide

/-- C10 witness: the status answer of the simulated board (transfer 17) with
its last echo byte changed from `0x00` to `0x01` makes a read fail with -17. -/
theorem corrupted_response_code_witness :
    (readRegister
      (corrupt board ([Transfer.bulkWrite 2 [1, 2, 3, 4] 4 5000] ++
        ((readSteps 5 4).take 17).map Step.transfer) 5 0x01)
      [Transfer.bulkWrite 2 [1, 2, 3, 4] 4 5000] 5 4 [0, 0, 0, 0]).returnCode = -((17 : Nat) : Int) :=
  (corrupted_response_code board [Transfer.bulkWrite 2 [1, 2, 3, 4] 4 5000] 5 4 [0, 0, 0, 0] []
    17 5 0x01 0x00 (.bulkIn 1 ([0x05, 0x40] ++ le32 4)) (by decide) (by decide) (by decide)).1
    (by decide) (by decide)

/-- C10 counterexample: the simulated board is compliant and delivers
`01 02 03 04` as the payload of a read of 4 bytes; with the first payload byte
changed to `0xFF` the transaction still returns 0, not the step-6 code -15. -/
theorem payload_corruption_not_detected :
    passed board [Transfer.bulkWrite 2 [1, 2, 3, 4] 4 5000] (readSteps 5 4) = 19 ∧
    board.usb_bulk_read ([Transfer.bulkWrite 2 [1, 2, 3, 4] 4 5000] ++
        ((readSteps 5 4).take 15).map Step.transfer) = .moved [1, 2, 3, 4] ∧
    (corrupt board ([Transfer.bulkWrite 2 [1, 2, 3, 4] 4 5000] ++
        ((readSteps 5 4).take 15).map Step.transfer) 0 0xFF).usb_bulk_read
      ([Transfer.bulkWrite 2 [1, 2, 3, 4] 4 5000] ++
        ((readSteps 5 4).take 15).map Step.transfer) = .moved [0xFF, 2, 3, 4] ∧
    protocolStep 15 = 6 ∧
    (readRegister
      (corrupt board ([Transfer.bulkWrite 2 [1, 2, 3, 4] 4 5000] ++
        ((readSteps 5 4).take 15).map Step.transfer) 0 0xFF)
      [Transfer.bulkWrite 2 [1, 2, 3, 4] 4 5000] 5 4 [0, 0, 0, 0]).returnCode = 0 ∧
    (readRegister
      (corrupt board ([Transfer.bulkWrite 2 [1, 2, 3, 4] 4 5000] ++
        ((readSteps 5 4).take 15).map Step.transfer) 0 0xFF)
      [Transfer.bulkWrite 2 [1, 2, 3, 4] 4 5000] 5 4 [0, 0, 0, 0]).returnCode ∉ stepCodes 6 := by
  decide

theorem le32_zero : le32 0 = [0, 0, 0, 0] := by decide

/-- C11: with count 0 the payload step is still performed. Once transfers
1..14 have succeeded, transfer 13 was the command frame with count bytes
`00 00 00 00` and transfer 15 is a bulk transfer of length 0 (a read on
endpoint 6 for `readRegister`, a write on endpoint 2 for `writeRegister`).
After 16 good transfers any status answer other than `05 40 00 00 00 00`
(read) or `05 80 00 00 00 00` (write) gives -17, so the status frame is
accepted only with an all-zero count echo. Against a device compliant
throughout, which answers the status read with exactly that frame, the
function returns 0 after 19 transfers. -/
theorem zero_count_transaction (d : Device) (log : List Transfer) (reg : Nat)
    (buffer payload : List Nat) :
    (14 ≤ passed d log (readSteps reg 0) →
      (readRegister d log reg 0 buffer).log[log.length + 12]? =
        some (.bulkWrite 1 [0x08, 0x04, 0x05, 0x00, reg, 0x00, 0x00, 0x00, 0x00] 9 5000) ∧
      (readRegister d log reg 0 buffer).log[log.length + 14]? = some (.bulkRead 0x86 0 5000)) ∧
    (16 ≤ passed d log (readSteps reg 0) →
      d.usb_bulk_read ((readRegister d log reg 0 buffer).log.take (log.length + 17)) ≠
        .moved [0x05, 0x40, 0x00, 0x00, 0x00, 0x00] →
      (readRegister d log reg 0 buffer).returnCode = -17) ∧
    (passed d log (readSteps reg 0) = 19 →
      d.usb_bulk_read ((readRegister d log reg 0 buffer).log.take (log.length + 17)) =
        .moved [0x05, 0x40, 0x00, 0x00, 0x00, 0x00] ∧
      (readRegister d log reg 0 buffer).returnCode = 0 ∧
      (readRegister d log reg 0 buffer).log.length = log.length + 19) ∧
    (14 ≤ passed d log (writeSteps reg 0 payload) →
      (writeRegister d log reg 0 payload).log[log.length + 12]? =
        some (.bulkWrite 1 [0x08, 0x04, 0x04, 0x00, reg, 0x00, 0x00, 0x00, 0x00] 9 5000) ∧
      (writeRegister d log reg 0 payload).log[log.length + 14]? =
        some (.bulkWrite 2 payload 0 5000)) ∧
    (16 ≤ passed d log (writeSteps reg 0 payload) →
      d.usb_bulk_read ((writeRegister d log reg 0 payload).log.take (log.length + 17)) ≠
        .moved [0x05, 0x80, 0x00, 0x00, 0x00, 0x00] →
      (writeRegister d log reg 0 payload).returnCode = -17) ∧
    (passed d log (writeSteps reg 0 payload) = 19 →
      d.usb_bulk_read ((writeRegister d log reg 0 payload).log.take (log.length + 17)) =
        .moved [0x05, 0x80, 0x00, 0x00, 0x00, 0x00] ∧
      (writeRegister d log reg 0 payload).returnCode = 0 ∧
      (writeRegister d log reg 0 payload).log.length = log.length + 19) := by
  have hr19 : (readSteps reg 0).length = 19 := rfl
  have hw19 : (writeSteps reg 0 payload).length = 19 := rfl
  refine ⟨?_, ?_, ?_, ?_, ?_, ?_⟩
  · intro h
    rw [readRegister_eq_run, run_log_getElem d _ log buffer 0 12 (by omega),
      run_log_getElem d _ log buffer 0 14 h]
    exact ⟨rfl, rfl⟩
  · intro h ho
    have hstep := run_step_ok d (readSteps reg 0) log buffer 0 16
      (.bulkIn 1 ([0x05, 0x40] ++ le32 0)) h rfl
    simp only [Step.ok, decide_eq_true_eq, le32_zero, List.cons_append, List.nil_append] at hstep
    rw [readRegister_eq_run] at ho ⊢
    have hp : passed d log (readSteps reg 0) = 16 := by
      have : ¬ 17 ≤ passed d log (readSteps reg 0) := fun h17 => ho (hstep.1 h17)
      omega
    rw [(run_stops d (readSteps reg 0) log buffer 0 16 hp (by omega)).1]; rfl
  · intro h
    have hstep := run_step_ok d (readSteps reg 0) log buffer 0 16
      (.bulkIn 1 ([0x05, 0x40] ++ le32 0)) (by omega) rfl
    simp only [Step.ok, decide_eq_true_eq, le32_zero, List.cons_append, List.nil_append] at hstep
    rw [readRegister_eq_run]
    refine ⟨hstep.1 (by omega), ?_, ?_⟩
    · rw [run_returnCode, h, hr19]; rfl
    · rw [run_log, h, List.length_append, List.length_map, List.length_take, hr19]; simp
  · intro h
    rw [writeRegister_eq_run, run_log_getElem d _ log payload 0 12 (by omega),
      run_log_getElem d _ log payload 0 14 h]
    exact ⟨rfl, rfl⟩
  · intro h ho
    have hstep := run_step_ok d (writeSteps reg 0 payload) log payload 0 16
      (.bulkIn 1 ([0x05, 0x80] ++ le32 0)) h rfl
    simp only [Step.ok, decide_eq_true_eq, le32_zero, List.cons_append, List.nil_append] at hstep
    rw [writeRegister_eq_run] at ho ⊢
    have hp : passed d log (writeSteps reg 0 payload) = 16 := by
      have : ¬ 17 ≤ passed d log (writeSteps reg 0 payload) := fun h17 => ho (hstep.1 h17)
      omega
    rw [(run_stops d (writeSteps reg 0 payload) log payload 0 16 hp (by omega)).1]; rfl
  · intro h
    have hstep := run_step_ok d (writeSteps reg 0 payload) log payload 0 16
      (.bulkIn 1 ([0x05, 0x80] ++ le32 0)) (by omega) rfl
    simp only [Step.ok, decide_eq_true_eq, le32_zero, List.cons_append, List.nil_append] at hstep
    rw [writeRegister_eq_run]
    refine ⟨hstep.1 (by omega), ?_, ?_⟩
    · rw [run_returnCode, h, hw19]; rfl
    · rw [run_log, h, List.length_append, List.length_map, List.length_take, hw19]; simp

/-- C11 witness: the simulated board, read and written with count 0. -/
theorem zero_count_transaction_witness :
    (readRegister board [] 5 0 []).returnCode = 0 ∧
    (readRegister board [] 5 0 []).log[14]? = some (.bulkRead 0x86 0 5000) ∧
    (writeRegister board [] 5 0 []).returnCode = 0 ∧
    (writeRegister board [] 5 0 []).log[14]? = some (.bulkWrite 2 [] 0 5000) :=
  ⟨((zero_count_transaction board [] 5 [] []).2.2.1 (by decide)).2.1,
   ((zero_count_transaction board [] 5 [] []).1 (by decide)).2,
   ((zero_count_transaction board [] 5 [] []).2.2.2.2.2 (by decide)).2.1,
   ((zero_count_transaction board [] 5 [] []).2.2.2.1 (by decide)).2⟩

/-! ## Invariants of the issued transfers -/

theorem run_issued (d : Device) (steps : List Step) (log : List Transfer)
    (buffer : List Nat) (idx : Nat) :
    (run d log buffer idx steps).log.drop log.length =
      (steps.map Step.transfer).take (passed d log steps + 1) := by
  rw [run_log, List.drop_left, List.map_take]

theorem forall_issued (d : Device) (steps : List Step) (log : List Transfer)
    (buffer : List Nat) (idx : Nat) (P : Transfer → Prop)
    (h : ∀ t ∈ steps.map Step.transfer, P t) :
    ∀ t ∈ (run d log buffer idx steps).log.drop log.length, P t := by
  rw [run_issued]
  intro t ht
  exact h t (List.mem_of_mem_take ht)

theorem count_issued_le (d : Device) (steps : List Step) (log : List Transfer)
    (buffer : List Nat) (idx : Nat) (p : Transfer → Bool) :
    ((run d log buffer idx steps).log.drop log.length).countP p ≤
      (steps.map Step.transfer).countP p := by
  rw [run_issued]
  exact (List.take_sublist _ _).countP_le p

/-- C12: for every device, compliant or failing at any step, every transfer
issued by `readRegister` or `writeRegister` has a 5000 ms timeout, and every
bulk transfer is on endpoint 1 except the payload transfer. `readRegister`
issues at most one bulk read on endpoint 6 and no transfer on endpoint 2;
`writeRegister` issues at most one bulk write on endpoint 2 and no transfer on
endpoint 6. The issued transfers are the log from the entry log onward. -/
theorem transfer_timeouts_and_endpoints (d : Device) (log : List Transfer) (reg : Nat)
    (count : Int) (buffer payload : List Nat) :
    (∀ t ∈ (readRegister d log reg count buffer).log.drop log.length,
      t.timeout = 5000 ∧
      (t.isBulk = true → t.endpoint = 1 ∨ t = .bulkRead 0x86 count 5000) ∧
      t.endpoint ≠ 2) ∧
    ((readRegister d log reg count buffer).log.drop log.length).countP
      (Transfer.isBulkReadOn 6) ≤ 1 ∧
    (∀ t ∈ (writeRegister d log reg count payload).log.drop log.length,
      t.timeout = 5000 ∧
      (t.isBulk = true → t.endpoint = 1 ∨ t = .bulkWrite 2 payload count 5000) ∧
      t.endpoint ≠ 6) ∧
    ((writeRegister d log reg count payload).log.drop log.length).countP
      (Transfer.isBulkWriteOn 2) ≤ 1 := by
  rw [readRegister_eq_run, writeRegister_eq_run]
  refine ⟨?_, ?_, ?_, ?_⟩
  · apply forall_issued
    simp [readSteps, Step.transfer, Transfer.timeout, Transfer.isBulk, Transfer.endpoint]
  · refine le_trans (count_issued_le d _ log buffer 0 _) ?_
    simp [readSteps, Step.transfer, Transfer.isBulkReadOn, USB_ENDPOINT_IN, List.countP_cons]
  · apply forall_issued
    simp [writeSteps, Step.transfer, Transfer.timeout, Transfer.isBulk, Transfer.endpoint]
  · refine le_trans (count_issued_le d _ log payload 0 _) ?_
    simp [writeSteps, Step.transfer, Transfer.isBulkWriteOn, USB_ENDPOINT_OUT, List.countP_cons]


/-! ## Devices that differ in the payload bytes only -/

theorem passed_congr (d1 d2 : Device) (steps : List Step) (log : List Transfer)
    (h : ∀ (i : Nat) (s : Step), steps[i]? = some s →
      s.ok d1 (log ++ (steps.take (i + 1)).map Step.transfer) =
        s.ok d2 (log ++ (steps.take (i + 1)).map Step.transfer)) :
    passed d1 log steps = passed d2 log steps := by
  apply Nat.le_antisymm
  · rw [passed_ge_iff d2]
    have h1 := (passed_ge_iff d1 steps log (passed d1 log steps)).1 (Nat.le_refl _)
    exact ⟨h1.1, fun i s hi hs => by rw [← h i s hs]; exact h1.2 i s hi hs⟩
  · rw [passed_ge_iff d1]
    have h2 := (passed_ge_iff d2 steps log (passed d2 log steps)).1 (Nat.le_refl _)
    exact ⟨h2.1, fun i s hi hs => by rw [h i s hs]; exact h2.2 i s hi hs⟩

theorem ok_congr (d1 d2 : Device) (s : Step) (h : List Transfer)
    (hc : d1.usb_control_msg = d2.usb_control_msg)
    (hw : d1.usb_bulk_write = d2.usb_bulk_write)
    (hr : d1.usb_bulk_read h = d2.usb_bulk_read h) :
    s.ok d1 h = s.ok d2 h := by
  cases s <;> simp [Step.ok, hc, hw, hr]

/-- C13: let two devices answer every control read and every bulk write alike
and every bulk read alike except the payload read (transfer 15), where they
report the same return code (the same number of bytes, or the same error) but
may deliver different byte values. Then `readRegister` issues the same
sequence of transfers and returns the same code on both: the payload acts on
the outcome through the length of the payload transfer only, and the count
that the status frame must echo comes from the command frame. -/
theorem payload_values_not_checked (d1 d2 : Device) (log : List Transfer) (reg : Nat)
    (count : Int) (buffer1 buffer2 : List Nat)
    (hc : d1.usb_control_msg = d2.usb_control_msg)
    (hw : d1.usb_bulk_write = d2.usb_bulk_write)
    (hr : ∀ h : List Transfer,
      h ≠ log ++ ((readSteps reg count).take 15).map Step.transfer →
        d1.usb_bulk_read h = d2.usb_bulk_read h)
    (hp : (d1.usb_bulk_read
        (log ++ ((readSteps reg count).take 15).map Step.transfer)).returnCode =
      (d2.usb_bulk_read (log ++ ((readSteps reg count).take 15).map Step.transfer)).returnCode) :
    (readRegister d1 log reg count buffer1).log = (readRegister d2 log reg count buffer2).log ∧
    (readRegister d1 log reg count buffer1).returnCode =
      (readRegister d2 log reg count buffer2).returnCode := by
  have hpass : passed d1 log (readSteps reg count) = passed d2 log (readSteps reg count) := by
    apply passed_congr
    intro i s hs
    have hi : i < 19 := by
      have := (List.getElem?_eq_some.1 hs).1
      simpa [readSteps] using this
    by_cases h14 : i = 14
    · subst h14
      have : s = .bulkInLen 6 count := by
        simp only [readSteps, List.getElem?_cons_succ, List.getElem?_cons_zero,
          Option.some.injEq] at hs
        exact hs.symm
      subst this
      simp only [Step.ok, hp]
    · apply ok_congr d1 d2 s _ hc hw
      apply hr
      intro heq
      have := congrArg List.length heq
      simp only [List.length_append, List.length_map, List.length_take, readSteps,
        List.length_cons, List.length_nil] at this
      omega
  rw [readRegister_eq_run, readRegister_eq_run, run_log, run_log, run_returnCode,
    run_returnCode, hpass]
  exact ⟨rfl, rfl⟩

/-- C13 witness: the simulated board delivering `01 02 03 04` and the same
board delivering `09 08 07 06`: the buffers differ, the return codes agree. -/
theorem payload_values_not_checked_witness :
    board.usb_bulk_read ([Transfer.bulkWrite 2 [1, 2, 3, 4] 4 5000] ++
      ((readSteps 5 4).take 15).map Step.transfer) = .moved [1, 2, 3, 4] ∧
    (readRegister board [Transfer.bulkWrite 2 [1, 2, 3, 4] 4 5000] 5 4 [0, 0, 0, 0]).buffer =
      [1, 2, 3, 4] ∧
    (readRegister (replaceRead board ([Transfer.bulkWrite 2 [1, 2, 3, 4] 4 5000] ++
        ((readSteps 5 4).take 15).map Step.transfer) [9, 8, 7, 6])
      [Transfer.bulkWrite 2 [1, 2, 3, 4] 4 5000] 5 4 [0, 0, 0, 0]).buffer = [9, 8, 7, 6] ∧
    (readRegister board [Transfer.bulkWrite 2 [1, 2, 3, 4] 4 5000] 5 4 [0, 0, 0, 0]).returnCode =
      (readRegister (replaceRead board ([Transfer.bulkWrite 2 [1, 2, 3, 4] 4 5000] ++
          ((readSteps 5 4).take 15).map Step.transfer) [9, 8, 7, 6])
        [Transfer.bulkWrite 2 [1, 2, 3, 4] 4 5000] 5 4 [0, 0, 0, 0]).returnCode :=
  ⟨by decide, by decide, by decide,
   (payload_values_not_checked board
      (replaceRead board ([Transfer.bulkWrite 2 [1, 2, 3, 4] 4 5000] ++
        ((readSteps 5 4).take 15).map Step.transfer) [9, 8, 7, 6])
      [Transfer.bulkWrite 2 [1, 2, 3, 4] 4 5000] 5 4 [0, 0, 0, 0] [0, 0, 0, 0] rfl rfl
      (fun _ hne => (if_neg hne).symm) (by decide)).2⟩

/-! ## Return codes of the helpers -/

theorem check_codes (o : Outcome) (expected : List Nat) (n : Nat) :
    ((if o.returnCode ≠ (n : Int) then (-1 : Int)
        else if memcmp o.data expected n ≠ 0 then -2 else 0) = 0 ↔
      ∃ data, o = .moved data ∧ data.length = n ∧ data = expected.take n) ∧
    ((if o.returnCode ≠ (n : Int) then (-1 : Int)
        else if memcmp o.data expected n ≠ 0 then -2 else 0) = -1 ↔
      ∀ data, o = .moved data → data.length ≠ n) ∧
    ((if o.returnCode ≠ (n : Int) then (-1 : Int)
        else if memcmp o.data expected n ≠ 0 then -2 else 0) = -2 ↔
      ∃ data, o = .moved data ∧ data.length = n ∧ data ≠ expected.take n) := by
  cases o with
  | error errno =>
    have h : (Outcome.error errno).returnCode ≠ (n : Int) := by
      simp only [Outcome.returnCode]; omega
    rw [if_pos h]
    refine ⟨⟨fun h0 => absurd h0 (by decide), (fun ⟨_, h1, _⟩ => by cases h1)⟩,
      ⟨(fun _ _ h1 => by cases h1), fun _ => rfl⟩,
      ⟨fun h0 => absurd h0 (by decide), (fun ⟨_, h1, _⟩ => by cases h1)⟩⟩
  | moved data =>
    by_cases hl : data.length = n
    · have hrc : ¬ (Outcome.moved data).returnCode ≠ (n : Int) := by
        simp only [Outcome.returnCode, hl, ne_eq, not_true_eq_false, not_false_eq_true]
      have hm : memcmp data expected n = 0 ↔ data = expected.take n := by
        unfold memcmp
        rw [← hl, List.take_length]
        by_cases h : data = List.take data.length expected
        · rw [if_pos h]; exact ⟨fun _ => h, fun _ => rfl⟩
        · rw [if_neg h]; exact ⟨fun h1 => absurd h1 (by decide), fun h1 => absurd h1 h⟩
      rw [if_neg hrc]
      simp only [Outcome.data]
      by_cases he : data = expected.take n
      · rw [if_neg (not_not.2 (hm.2 he))]
        refine ⟨⟨fun _ => ⟨data, rfl, hl, he⟩, fun _ => rfl⟩,
          ⟨fun h0 => absurd h0 (by decide), fun h1 => absurd hl (h1 data rfl)⟩,
          ⟨fun h0 => absurd h0 (by decide), fun ⟨x, h1, _, h3⟩ => ?_⟩⟩
        cases h1
        exact absurd he h3
      · rw [if_pos (fun h => he (hm.1 h))]
        refine ⟨⟨fun h0 => absurd h0 (by decide), fun ⟨x, h1, _, h3⟩ => ?_⟩,
          ⟨fun h0 => absurd h0 (by decide), fun h1 => absurd hl (h1 data rfl)⟩,
          ⟨fun _ => ⟨data, rfl, hl, he⟩, fun _ => rfl⟩⟩
        cases h1
        exact absurd h3 he
    · have hrc : (Outcome.moved data).returnCode ≠ (n : Int) := by
        simp only [Outcome.returnCode]; exact_mod_cast hl
      rw [if_pos hrc]
      refine ⟨⟨fun h0 => absurd h0 (by decide), fun ⟨x, h1, h2, _⟩ => ?_⟩,
        ⟨fun _ x h1 => ?_, fun _ => rfl⟩,
        ⟨fun h0 => absurd h0 (by decide), fun ⟨x, h1, h2, _⟩ => ?_⟩⟩
      · cases h1; exact absurd h2 hl
      · cases h1; exact hl
      · cases h1; exact absurd h2 hl

/-- C14: for every expected array, length `wLength` and device answer,
`controlRead` and `bulkRead` return 0 exactly when the transfer delivered
`wLength` bytes equal to the first `wLength` bytes of `expected`, -1 exactly
when it did not deliver `wLength` bytes (a transport error included), and -2
exactly when it delivered `wLength` bytes that are not those of `expected`.
`bulkWrite` returns 0 exactly when the transfer reports `wLength` bytes written
and -1 otherwise. In C the arrays must hold `wLength` bytes, which C16 shows
for every call the engine makes. -/
theorem helper_return_codes (d : Device) (log : List Transfer)
    (bRequest wValue wIndex endpoint : Nat) (expected buffer : List Nat) (wLength : Nat) :
    ((controlRead d log bRequest wValue wIndex expected wLength).1 = 0 ↔
      ∃ data, d.usb_control_msg (log ++ [.control 0xC0 bRequest wValue wIndex wLength 5000]) =
        .moved data ∧ data.length = wLength ∧ data = expected.take wLength) ∧
    ((controlRead d log bRequest wValue wIndex expected wLength).1 = -1 ↔
      ∀ data, d.usb_control_msg (log ++ [.control 0xC0 bRequest wValue wIndex wLength 5000]) =
        .moved data → data.length ≠ wLength) ∧
    ((controlRead d log bRequest wValue wIndex expected wLength).1 = -2 ↔
      ∃ data, d.usb_control_msg (log ++ [.control 0xC0 bRequest wValue wIndex wLength 5000]) =
        .moved data ∧ data.length = wLength ∧ data ≠ expected.take wLength) ∧
    ((bulkRead d log endpoint expected wLength).1 = 0 ↔
      ∃ data, d.usb_bulk_read (log ++ [.bulkRead (0x80 ||| endpoint) wLength 5000]) =
        .moved data ∧ data.length = wLength ∧ data = expected.take wLength) ∧
    ((bulkRead d log endpoint expected wLength).1 = -1 ↔
      ∀ data, d.usb_bulk_read (log ++ [.bulkRead (0x80 ||| endpoint) wLength 5000]) =
        .moved data → data.length ≠ wLength) ∧
    ((bulkRead d log endpoint expected wLength).1 = -2 ↔
      ∃ data, d.usb_bulk_read (log ++ [.bulkRead (0x80 ||| endpoint) wLength 5000]) =
        .moved data ∧ data.length = wLength ∧ data ≠ expected.take wLength) ∧
    ((bulkWrite d log endpoint buffer wLength).1 = 0 ↔
      d.usb_bulk_write (log ++ [.bulkWrite endpoint buffer wLength 5000]) = wLength) ∧
    ((bulkWrite d log endpoint buffer wLength).1 = -1 ↔
      d.usb_bulk_write (log ++ [.bulkWrite endpoint buffer wLength 5000]) ≠ wLength) := by
  have hcr : (controlRead d log bRequest wValue wIndex expected wLength).1 =
      (if (d.usb_control_msg (log ++ [.control 0xC0 bRequest wValue wIndex wLength
          5000])).returnCode ≠ (wLength : Int) then (-1 : Int)
        else if memcmp (d.usb_control_msg (log ++ [.control 0xC0 bRequest wValue wIndex wLength
          5000])).data expected wLength ≠ 0 then -2 else 0) := by
    simp only [controlRead, usb_control_msg, requesttype_eq]
    split_ifs <;> rfl
  have hbr : (bulkRead d log endpoint expected wLength).1 =
      (if (d.usb_bulk_read (log ++ [.bulkRead (0x80 ||| endpoint) wLength
          5000])).returnCode ≠ (wLength : Int) then (-1 : Int)
        else if memcmp (d.usb_bulk_read (log ++ [.bulkRead (0x80 ||| endpoint) wLength
          5000])).data expected wLength ≠ 0 then -2 else 0) := by
    simp only [bulkRead, usb_bulk_read, USB_ENDPOINT_IN]
    split_ifs <;> rfl
  have hbw : (bulkWrite d log endpoint buffer wLength).1 =
      (if d.usb_bulk_write (log ++ [.bulkWrite endpoint buffer wLength 5000]) ≠ (wLength : Int)
        then (-1 : Int) else 0) := by
    simp only [bulkWrite, usb_bulk_write, USB_ENDPOINT_OUT, Nat.zero_or]
    split_ifs <;> rfl
  rw [hcr, hbr, hbw]
  have h1 := check_codes (d.usb_control_msg (log ++ [.control 0xC0 bRequest wValue wIndex
    wLength 5000])) expected wLength
  have h2 := check_codes (d.usb_bulk_read (log ++ [.bulkRead (0x80 ||| endpoint) wLength
    5000])) expected wLength
  refine ⟨h1.1, h1.2.1, h1.2.2, h2.1, h2.2.1, h2.2.2, ?_, ?_⟩
  · split_ifs with h
    · exact ⟨fun h0 => absurd h0 (by decide), fun h0 => absurd h0 h⟩
    · exact ⟨fun _ => not_not.1 h, fun _ => rfl⟩
  · split_ifs with h
    · exact ⟨fun _ => h, fun _ => rfl⟩
    · exact ⟨fun h0 => absurd h0 (by decide), fun h0 => absurd h0 h⟩

theorem ite_or_same {α : Type} (p q : Prop) [Decidable p] [Decidable q] (a b : α) :
    (if p then a else if q then a else b) = if p ∨ q then a else b := by
  by_cases hp : p <;> by_cases hq : q <;> simp [hp, hq]

theorem readRegister_eq_runOps (d : Device) (log : List Transfer) (reg : Nat) (nReads : Int)
    (buffer : List Nat) :
    readRegister d log reg nReads buffer = runOps d log buffer 0 (readOps reg nReads) := by
  simp only [readRegister, ite_or_same]
  simp only [readOps, runOps, Op.exec, decide_eq_true_eq, Nat.cast_ofNat, Nat.reduceAdd,
    Nat.cast_zero, zero_add, Int.reduceNeg, Nat.cast_add, Nat.cast_one, Int.reduceAdd]

theorem writeRegister_eq_runOps (d : Device) (log : List Transfer) (reg : Nat) (nWrites : Int)
    (buffer : List Nat) :
    writeRegister d log reg nWrites buffer = runOps d log buffer 0 (writeOps reg nWrites) := by
  simp only [writeRegister, ite_or_same]
  simp only [writeOps, runOps, Op.exec, decide_eq_true_eq, Nat.cast_ofNat, Nat.reduceAdd,
    Nat.cast_zero, zero_add, Int.reduceNeg, Nat.cast_add, Nat.cast_one, Int.reduceAdd]

/-- C16: the bodies of `readRegister` and `writeRegister` are the statement
lists `readOps` and `writeOps` (executing them is the function). Each list has
17 helper calls, and in every call to `controlRead`, `bulkRead` and `bulkWrite`
the length argument equals the number of bytes of the array passed with it (a
constant array or the 9-byte command frame), is at most 9 and is below
`BUFFER_SIZE` = 4096: no comparison or transfer of a fixed frame goes past the
end of the frame or of the receive buffer. -/
theorem helper_lengths_in_bounds (d : Device) (log : List Transfer) (reg : Nat) (count : Int)
    (buffer : List Nat) :
    readRegister d log reg count buffer = runOps d log buffer 0 (readOps reg count) ∧
    writeRegister d log reg count buffer = runOps d log buffer 0 (writeOps reg count) ∧
    ((readOps reg count).filterMap Op.helperArgs).length = 17 ∧
    ((writeOps reg count).filterMap Op.helperArgs).length = 17 ∧
    (∀ op ∈ readOps reg count ++ writeOps reg count, ∀ (array : List Nat) (wLength : Nat),
      op.helperArgs = some (array, wLength) →
        wLength = array.length ∧ wLength ≤ 9 ∧ wLength < BUFFER_SIZE) := by
  refine ⟨readRegister_eq_runOps d log reg count buffer,
    writeRegister_eq_runOps d log reg count buffer, rfl, rfl, ?_⟩
  simp [readOps, writeOps, Op.helperArgs, BUFFER_SIZE]
/-! ## The program `main` -/

/-- The `int` that `main` passes for a 32-bit length of `2^31` or more is
negative, for instance -22 for 4294967274 and -1 for 4294967295. -/
theorem toInt_of_large_length : toInt 4294967274 = -22 ∧ toInt 4294967295 = -1 := by decide

theorem mainUsb_cases (env : Env) (isWrite : Bool) (vid pid reg len : Nat) (buffer : List Nat)
    (w : Bool) (rc : Int)
    (h : (mainUsb env isWrite vid pid reg len buffer).transaction = some (w, rc)) :
    w = isWrite ∧ env.usbOpenDevice vid pid = 0 ∧
    (mainUsb env isWrite vid pid reg len buffer).exitCode = 0 ∧
    (mainUsb env isWrite vid pid reg len buffer).usbClosed = true ∧
    (mainUsb env isWrite vid pid reg len buffer).stderr =
      (if rc ≠ 0 then [.transactionFailed rc] else []) ∧
    (mainUsb env isWrite vid pid reg len buffer).stdout = [] ∧
    (isWrite = true →
      rc = (writeRegister env.device [] (reg % 256) (toInt len) buffer).returnCode ∧
      (mainUsb env isWrite vid pid reg len buffer).fwrite = none) ∧
    (isWrite = false →
      rc = (readRegister env.device [] (reg % 256) (toInt len) buffer).returnCode ∧
      (mainUsb env isWrite vid pid reg len buffer).fwrite =
        (if rc ≠ 0 then none
          else some ((readRegister env.device [] (reg % 256) (toInt len) buffer).buffer.take
            len))) := by
  unfold mainUsb at h ⊢
  simp only at h ⊢
  split_ifs at h ⊢ <;> simp_all

theorem mainBuffer_reaches_mainUsb (env : Env) (isWrite file w : Bool) (vid pid reg len : Nat)
    (rc : Int) (h : (mainBuffer env isWrite file vid pid reg len).transaction = some (w, rc)) :
    ∃ buffer : List Nat,
      mainBuffer env isWrite file vid pid reg len = mainUsb env isWrite vid pid reg len buffer ∧
      (isWrite = false → buffer = env.heap) := by
  unfold mainBuffer at h ⊢
  by_cases h4 : env.malloc = false
  · rw [if_pos h4] at h; exact Option.noConfusion h
  rw [if_neg h4] at h ⊢
  cases isWrite with
  | true =>
    rw [if_pos rfl] at h ⊢
    cases file with
    | true =>
      rw [if_pos rfl] at h ⊢
      by_cases h6 : (env.fileData.take len).length ≠ len
      · rw [if_pos h6] at h; exact Option.noConfusion h
      · rw [if_neg h6]; exact ⟨_, rfl, fun hw => Bool.noConfusion hw⟩
    | false =>
      rw [if_neg Bool.false_ne_true] at h ⊢
      by_cases h6 : (env.stdinData.take len).length ≠ len
      · rw [if_pos h6] at h; exact Option.noConfusion h
      · rw [if_neg h6]; exact ⟨_, rfl, fun hw => Bool.noConfusion hw⟩
  | false =>
    rw [if_neg Bool.false_ne_true] at h ⊢
    exact ⟨_, rfl, fun _ => rfl⟩

theorem mainFile_reaches_mainUsb (env : Env) (isWrite w : Bool) (rc : Int)
    (h : (mainFile env isWrite).transaction = some (w, rc)) :
    ∃ (vid pid len : Nat) (buffer : List Nat),
      mainFile env isWrite = mainUsb env isWrite vid pid (env.addrVal % 2 ^ 32) len buffer ∧
      (isWrite = false → len = env.lenVal % 2 ^ 32 ∧ buffer = env.heap) := by
  unfold mainFile at h ⊢
  by_cases h1 : env.fileCount ≠ 0 ∧ env.fopen = false
  · rw [if_pos h1] at h; exact Option.noConfusion h
  rw [if_neg h1] at h ⊢
  by_cases h2 : env.lenCount ≠ 0
  · rw [if_pos h2] at h ⊢
    obtain ⟨buffer, hb, hread⟩ := mainBuffer_reaches_mainUsb env isWrite _ w _ _ _ _ rc h
    exact ⟨_, _, _, buffer, hb, fun hw => ⟨rfl, hread hw⟩⟩
  rw [if_neg h2] at h ⊢
  by_cases h3 : isWrite = false
  · rw [if_pos h3] at h; exact Option.noConfusion h
  rw [if_neg h3] at h ⊢
  by_cases h5 : decide (env.fileCount ≠ 0) = false
  · rw [if_pos h5] at h; exact Option.noConfusion h
  rw [if_neg h5] at h ⊢
  obtain ⟨buffer, hb, -⟩ := mainBuffer_reaches_mainUsb env isWrite _ w _ _ _ _ rc h
  exact ⟨_, _, _, buffer, hb, fun hw => absurd hw h3⟩

theorem main_reaches_mainUsb (env : Env) (w : Bool) (rc : Int)
    (h : (main env).transaction = some (w, rc)) :
    ∃ (isWrite : Bool) (vid pid len : Nat) (buffer : List Nat),
      main env = mainUsb env isWrite vid pid (env.addrVal % 2 ^ 32) len buffer ∧
      (isWrite = false → len = env.lenVal % 2 ^ 32 ∧ buffer = env.heap) := by
  unfold main at h ⊢
  simp only at h ⊢
  split_ifs at h ⊢
  all_goals first
    | exact Option.noConfusion h
    | exact ⟨_, mainFile_reaches_mainUsb env _ w rc h⟩

theorem receive_length_ge (d : Device) (log : List Transfer) (buffer : List Nat) (s : Step) :
    buffer.length ≤ (s.receive d log buffer).length := by
  cases s <;> simp only [Step.receive, List.length_append, List.length_drop, le_refl]
  omega

theorem bufferAfter_length_ge (d : Device) : ∀ (steps : List Step) (log : List Transfer)
    (buffer : List Nat), buffer.length ≤ (bufferAfter d log buffer steps).length := by
  intro steps
  induction steps with
  | nil => intro log buffer; simp [bufferAfter]
  | cons s rest ih =>
    intro log buffer
    simp only [bufferAfter]
    exact le_trans (receive_length_ge d _ buffer s) (ih _ _)

theorem readRegister_buffer_length (d : Device) (log : List Transfer) (reg : Nat) (n : Int)
    (buffer : List Nat) : buffer.length ≤ (readRegister d log reg n buffer).buffer.length := by
  rw [readRegister_eq_run, run_buffer]
  exact bufferAfter_length_ge d _ log buffer

/-- C15: when `main` has called `readRegister` and it returned `rc`, nothing
is handed to `fwrite` if `rc` is not 0, and if `rc` is 0 the first `len` bytes
of the buffer are handed to `fwrite` (all `len` bytes when the buffer holds
`len` bytes, as the block from `malloc(len)` does). Here `len` is the value of
the length option, the register is the address option truncated to a byte and
the count is `len` converted to `int`. -/
theorem read_output_only_on_success (env : Env) (rc : Int)
    (h : (main env).transaction = some (false, rc)) :
    rc = (readRegister env.device [] (env.addrVal % 2 ^ 32 % 256) (toInt (env.lenVal % 2 ^ 32))
      env.heap).returnCode ∧
    (rc ≠ 0 → (main env).fwrite = none) ∧
    (rc = 0 → (main env).fwrite =
      some ((readRegister env.device [] (env.addrVal % 2 ^ 32 % 256)
        (toInt (env.lenVal % 2 ^ 32)) env.heap).buffer.take (env.lenVal % 2 ^ 32))) ∧
    (rc = 0 → env.heap.length = env.lenVal % 2 ^ 32 →
      ∃ bytes, (main env).fwrite = some bytes ∧ bytes.length = env.lenVal % 2 ^ 32) := by
  obtain ⟨isWrite, vid, pid, len, buffer, hmain, hread⟩ := main_reaches_mainUsb env false rc h
  rw [hmain] at h ⊢
  have hc := mainUsb_cases env isWrite vid pid (env.addrVal % 2 ^ 32) len buffer false rc h
  have hw : isWrite = false := hc.1.symm
  obtain ⟨hlen, hbuf⟩ := hread hw
  subst hw hlen hbuf
  have hr := hc.2.2.2.2.2.2.2 rfl
  refine ⟨hr.1, fun hne => by rw [hr.2, if_pos hne], fun h0 => by rw [hr.2, if_neg (not_not.2 h0)],
    fun h0 hheap => ⟨_, by rw [hr.2, if_neg (not_not.2 h0)], ?_⟩⟩
  rw [List.length_take, Nat.min_eq_left]
  rw [← hheap]
  exact readRegister_buffer_length _ _ _ _ _

/-- C15 witness: `nexys2epp -r -a 5 -l 4` on a board whose first control read
is wrong: `readRegister` returns -1 and nothing is written. -/
theorem read_output_only_on_success_witness :
    (main (sampleEnv false
      (corrupt board [Transfer.control 0xC0 0xE9 0 0 4 5000] 3 0x01))).transaction =
        some (false, -1) ∧
    (main (sampleEnv false
      (corrupt board [Transfer.control 0xC0 0xE9 0 0 4 5000] 3 0x01))).fwrite = none :=
  ⟨by decide,
   (read_output_only_on_success
      (sampleEnv false (corrupt board [Transfer.control 0xC0 0xE9 0 0 4 5000] 3 0x01)) (-1)
      (by decide)).2.1 (by decide)⟩

/-- C17: whenever `main` has run a transaction (which it does exactly when the
device was opened), whatever `readRegister` or `writeRegister` returned, zero
or not, `main` returns exit code 0 and closes the device; a non-zero return
code is reported by one message on `stderr` and by nothing else. -/
theorem exit_code_ignores_transaction (env : Env) (w : Bool) (rc : Int)
    (h : (main env).transaction = some (w, rc)) :
    (main env).exitCode = 0 ∧
    (main env).usbClosed = true ∧
    (main env).stdout = [] ∧
    (main env).stderr = (if rc ≠ 0 then [.transactionFailed rc] else []) := by
  obtain ⟨isWrite, vid, pid, len, buffer, hmain, -⟩ := main_reaches_mainUsb env w rc h
  rw [hmain] at h ⊢
  have hc := mainUsb_cases env isWrite vid pid (env.addrVal % 2 ^ 32) len buffer w rc h
  exact ⟨hc.2.2.1, hc.2.2.2.1, hc.2.2.2.2.2.1, hc.2.2.2.2.1⟩

/-- C17 witness: `nexys2epp -w -a 5 -l 4` on a board whose status read fails:
`writeRegister` returns -17 and `main` returns 0. -/
theorem exit_code_ignores_transaction_witness :
    (main (sampleEnv true (failAt board
      (((writeSteps 5 4 [0xDE, 0xAD, 0xBE, 0xEF]).take 17).map Step.transfer) 0))).transaction =
        some (true, -17) ∧
    (main (sampleEnv true (failAt board
      (((writeSteps 5 4 [0xDE, 0xAD, 0xBE, 0xEF]).take 17).map Step.transfer) 0))).exitCode = 0 :=
  ⟨by decide,
   (exit_code_ignores_transaction
      (sampleEnv true (failAt board
        (((writeSteps 5 4 [0xDE, 0xAD, 0xBE, 0xEF]).take 17).map Step.transfer) 0)) true (-17)
      (by decide)).1⟩

/-- The defect behind C8 and C9 seen from `main`: `nexys2epp -r -a 5 -l 4294967295`
on a board whose payload read fails with the transport error -1. `main` passes
the length as the `int` -1, `readRegister` returns 0, and `main` hands the
untouched buffer to `fwrite` and returns exit code 0. -/
theorem main_large_length_read :
    (main { sampleEnv false
        (failAt board (((readSteps 5 (-1)).take 15).map Step.transfer) 0) with
        lenVal := 4294967295, heap := [7, 7] }).transaction = some (false, 0) ∧
    (main { sampleEnv false
        (failAt board (((readSteps 5 (-1)).take 15).map Step.transfer) 0) with
        lenVal := 4294967295, heap := [7, 7] }).exitCode = 0 ∧
    (main { sampleEnv false
        (failAt board (((readSteps 5 (-1)).take 15).map Step.transfer) 0) with
        lenVal := 4294967295, heap := [7, 7] }).fwrite = some [7, 7] := by
  have h : main { sampleEnv false
        (failAt board (((readSteps 5 (-1)).take 15).map Step.transfer) 0) with
        lenVal := 4294967295, heap := [7, 7] } =
      mainUsb { sampleEnv false
        (failAt board (((readSteps 5 (-1)).take 15).map Step.transfer) 0) with
        lenVal := 4294967295, heap := [7, 7] } false VID PID 5 4294967295 [7, 7] := by
    rfl
  rw [h]
  unfold mainUsb
  simp only [sampleEnv]
  rw [show toInt 4294967295 = -1 from by decide, show (5 : Nat) % 256 = 5 from rfl,
    readRegister_eq_run]
  decide

end Nexys2epp
